import Mathlib

/-!
Formal model of the Google Workspace provisioning Lambda (src/main.py).

The pipeline drives a headless browser through login, authenticator setup,
2-Step-Verification enablement and app-password generation, then persists
the derived secrets.  The browser and the external stores are uncontrolled
collaborators: they are modelled as environment parameters (records of
functions over an abstract browser-state type), while every piece of control
flow, string manipulation and record construction owned by main.py is
translated directly from the source.

Python strings are modelled as Lean `String`; the Python string operations
used by main.py are re-implemented over `String.data` (lists of characters)
so that all definitions evaluate inside the kernel.
-/

/-! ## Python string primitives -/

/-- Boolean test that `p` is a characterwise initial segment of `l`. -/
def listStarts : List Char → List Char → Bool
  | [], _ => true
  | x :: xs, y :: ys => x == y && listStarts xs ys
  | _, [] => false

/-- Boolean test that `needle` occurs as a contiguous sublist of `hay`. -/
def listSub (needle : List Char) : List Char → Bool
  | [] => needle.isEmpty
  | c :: rest => listStarts needle (c :: rest) || listSub needle rest

/-- Python `needle in hay` on strings (substring containment). -/
def pyIn (needle hay : String) : Bool := listSub needle.data hay.data

/-- The whitespace characters stripped by Python `str.strip()` (ASCII subset). -/
def pySpace (c : Char) : Bool := [' ', '\t', '\n', '\r'].contains c

/-- Python `s.strip()`: remove leading and trailing whitespace. -/
def pyStrip (s : String) : String :=
  ⟨((s.data.dropWhile pySpace).reverse.dropWhile pySpace).reverse⟩

/-- Python `s.replace(" ", "")`: remove every space character. -/
def pyRemoveSpaces (s : String) : String := ⟨s.data.filter (fun c => c != ' ')⟩

/-- Python `s.upper()` (ASCII letters). -/
def pyUpper (s : String) : String := ⟨s.data.map Char.toUpper⟩

/-- Python `s.lower()` (ASCII letters). -/
def pyLower (s : String) : String := ⟨s.data.map Char.toLower⟩

/-- Python `s[:n]` for `n ≥ 0`. -/
def pyTake (s : String) (n : Nat) : String := ⟨s.data.take n⟩

/-- Python `s[-n:]` for `n ≥ 1` (the last `n` characters; the whole string if shorter). -/
def pyTakeRight (s : String) (n : Nat) : String := ⟨s.data.drop (s.data.length - n)⟩

/-- Python `len(s)`. -/
def pyLen (s : String) : Nat := s.data.length

/-- Python `s.isalnum()` restricted to ASCII: nonempty and all characters alphanumeric. -/
def pyIsAlnum (s : String) : Bool := !s.data.isEmpty && s.data.all Char.isAlphanum

/-- Python `s.rstrip("/")`. -/
def pyRstripSlash (s : String) : String := ⟨(s.data.reverse.dropWhile (fun c => c == '/')).reverse⟩

/-- Decimal digit to character. -/
def digitChar (d : Nat) : Char := Char.ofNat (48 + d)

/-- Decimal digits of `n` (auxiliary, fuel-driven). -/
def natStrAux : Nat → Nat → List Char
  | 0, _ => []
  | fuel + 1, n => if n < 10 then [digitChar n] else natStrAux fuel (n / 10) ++ [digitChar (n % 10)]

/-- Python `str(n)` for a natural number. -/
def pyStr (n : Nat) : String := ⟨natStrAux (n + 1) n⟩

/-- Python `int(s)`: optional surrounding whitespace, optional sign, then decimal
digits; raises `ValueError` (modelled as `none`) on anything else. -/
def pyInt (s : String) : Option Int :=
  let t := (pyStrip s).data
  let core : Option (Int × List Char) :=
    match t with
    | '-' :: rest => some (-1, rest)
    | '+' :: rest => some (1, rest)
    | _ => some (1, t)
  match core with
  | some (sign, ds) =>
      if ds.isEmpty || !ds.all Char.isDigit then none
      else some (sign * (ds.foldl (fun a c => a * 10 + (c.toNat - 48)) 0 : Nat))
  | none => none

/-! ## Secret masking (main.py lines 1595, 1806, 1825, 1848, 1876, 1894)

Throughout main.py a secret is rendered in returned/stored fields as
`secret_key[:4] + "****" + secret_key[-4:]`, guarded by Python truthiness
(`if secret_key`, i.e. not `None` and not the empty string). -/

/-- `s[:4] + "****" + s[-4:]`. -/
def mask_secret (s : String) : String := pyTake s 4 ++ "****" ++ pyTakeRight s 4

/-- `s[:4] + "****" + s[-4:] if s else None` applied to an optional string. -/
def mask_if_truthy : Option String → Option String
  | none => none
  | some s => if pyLen s == 0 then none else some (mask_secret s)

/-! ## External-store effects

Every write the pipeline performs against an external store is recorded as an
`Effect`.  The `s3Write` constructor exists so that claims about the removed
object-storage sink can be stated: main.py lines 389-394 record that
`append_app_password_to_s3` was removed, and no code path emits it. -/

/-- The DynamoDB item written by `save_to_dynamodb` (main.py lines 1586-1595). -/
structure DynamoItem where
  email : String
  app_password : Option String
  created_at : Nat
  updated_at : Nat
  secret_key : Option String
  deriving DecidableEq

/-- An externally visible action of the pipeline. -/
inductive Effect where
  /-- a browser session launch is attempted (`get_chrome_driver`, line 1741) -/
  | driverLaunch
  /-- an SFTP file write of `content` at `path` on `host` (line 374-375) -/
  | sftpWrite (host path content : String)
  /-- a DynamoDB `put_item` into `table` (line 1598) -/
  | dynamoPut (table : String) (item : DynamoItem)
  /-- an S3 object write; never emitted (the S3 sink was removed, lines 389-394) -/
  | s3Write (bucket key content : String)
  deriving DecidableEq

/-- Whether an effect is an S3 write. -/
def Effect.isS3 : Effect → Bool
  | .s3Write _ _ _ => true
  | _ => false

/-- Whether an effect is an SFTP file write. -/
def Effect.isSftpWrite : Effect → Bool
  | .sftpWrite _ _ _ => true
  | _ => false

/-- Whether an effect is a DynamoDB put. -/
def Effect.isDynamoPut : Effect → Bool
  | .dynamoPut _ _ => true
  | _ => false

/-! ## SFTP sink: `upload_secret_to_sftp` (main.py lines 321-386) -/

/-- Environment of the SFTP sink: the relevant environment variables
(`os.environ.get`, lines 331-335) and whether the paramiko connect /
mkdir / write block (lines 344-381) succeeds.  An exception inside that
block is caught at line 383 and turns into a `(None, None)` return; the
model places the exception before the file write. -/
structure SftpCfg where
  SECRET_SFTP_HOST : Option String
  SECRET_SFTP_PORT : Option String
  SECRET_SFTP_USER : Option String
  SECRET_SFTP_PASSWORD : Option String
  SECRET_SFTP_REMOTE_DIR : Option String
  conn_ok : Bool

/-- Result of `upload_secret_to_sftp`: either an uncaught exception
(the `int(...)` call parsing `SECRET_SFTP_PORT` at line 332 sits outside
the `try` block, so a non-numeric port value propagates a `ValueError`
to the caller), or the `(host, remote_path)` pair (both `None` on any
caught failure). -/
inductive SftpRet where
  | raised (msg : String)
  | ret (host : Option String) (path : Option String)
  deriving DecidableEq

/-- `email.split("@")[0] if "@" in email else email` (line 342): the part
of the email before the first `@`, or the whole email when it has none. -/
def sftp_alias (email : String) : String := ⟨email.data.takeWhile (fun c => c != '@')⟩

/-- `upload_secret_to_sftp(email, secret_key)`, lines 321-386.  `secret_key`
is optional because the caller passes a possibly-`None` variable; writing
`None` would raise inside the `try` and be caught, returning `(None, None)`. -/
def upload_secret_to_sftp (cfg : SftpCfg) (email : String) (secret_key : Option String) :
    SftpRet × List Effect :=
  let host := cfg.SECRET_SFTP_HOST.getD "46.224.9.127"
  match pyInt (cfg.SECRET_SFTP_PORT.getD "22") with
  | none => (.raised "invalid literal for int() with base 10", [])
  | some _port =>
    let user := cfg.SECRET_SFTP_USER
    let password := cfg.SECRET_SFTP_PASSWORD
    let remote_dir := cfg.SECRET_SFTP_REMOTE_DIR.getD "/home/brightmindscampus/"
    -- if not all([host, user, password]): return None, None  (lines 337-339)
    if pyLen host == 0 || pyLen (user.getD "") == 0 || pyLen (password.getD "") == 0 then
      (.ret none none, [])
    else
      let aliasName := sftp_alias email
      match secret_key, cfg.conn_ok with
      | some sk, true =>
          -- alias_dir = f"{remote_dir.rstrip('/')}/{alias}"        (line 363)
          let alias_dir := pyRstripSlash remote_dir ++ "/" ++ aliasName
          -- filename = f"{email}_authenticator_secret_key.txt"     (line 370)
          let filename := email ++ "_authenticator_secret_key.txt"
          -- remote_path = f"{alias_dir}/{filename}"                (line 371)
          let remote_path := alias_dir ++ "/" ++ filename
          (.ret (some host) (some remote_path), [.sftpWrite host remote_path sk])
      | _, _ => (.ret none none, [])

/-! ## DynamoDB sink: `save_to_dynamodb` (main.py lines 1569-1606) -/

/-- Environment of the DynamoDB sink: the table-name environment variable,
whether the `put_item` call succeeds (everything sits inside one `try`;
a failure is caught at line 1603 and returns `False`), and the wall-clock
timestamp `int(time.time())`. -/
structure DynamoCfg where
  DYNAMODB_TABLE_NAME : Option String
  put_ok : Bool
  now : Nat

/-- `save_to_dynamodb(email, app_password, secret_key)`, lines 1569-1606.
The item stores the raw app password and a masked secret key
(`secret_key[:4] + "****" + secret_key[-4:]`, added only when truthy). -/
def save_to_dynamodb (cfg : DynamoCfg) (email : String) (app_password : Option String)
    (secret_key : Option String) : Bool × List Effect :=
  let table_name := cfg.DYNAMODB_TABLE_NAME.getD "gbot-app-passwords"
  if cfg.put_ok then
    let item : DynamoItem :=
      { email := email, app_password := app_password,
        created_at := cfg.now, updated_at := cfg.now,
        secret_key := mask_if_truthy secret_key }
    (true, [.dynamoPut table_name item])
  else (false, [])

/-! ## Secret extraction: `setup_authenticator` (main.py lines 897-1107)

The navigation/click phases (set-up button, text-reveal link, next button)
only influence which texts the page exposes; they are absorbed into the page
environment.  The extraction core (lines 997-1054) scans two candidate
lists:

* the primary list (lines 1003-1018): the reference XPath
  `/html/body/div[i]/div/div[2]/span/div/div/ol/li[2]/div/strong` for
  `i = 9..13`; a candidate text is stripped, space-stripped and uppercased,
  and accepted when its length is at least 16 — with no alphanumeric check;
* the alternative list (lines 1021-1050): 5 static XPaths followed by three
  dynamic XPaths for each `i = 9..13` (20 candidates); the same cleanup is
  applied and a candidate is accepted when its length is at least 16 AND
  `cleaned.isalnum()`. -/

/-- The page environment of the extractor: the text found at each candidate
XPath (`none` when the element is absent), indexed by position. -/
structure AuthPage where
  primaryText : Nat → Option String
  altText : Nat → Option String

/-- `cleaned = element.text.strip().replace(" ", "").upper()` (lines 1010-1012 and 1043-1044). -/
def clean_candidate (t : String) : String := pyUpper (pyRemoveSpaces (pyStrip t))

/-- Scan candidate texts in order; clean each found text and return the first
cleaned text the acceptance predicate validates. -/
def firstAccepted (accept : String → Bool) : List (Option String) → Option String
  | [] => none
  | none :: rest => firstAccepted accept rest
  | some t :: rest =>
      let c := clean_candidate t
      if accept c then some c else firstAccepted accept rest

/-- Primary-loop acceptance (line 1013): `len(cleaned) >= 16` only. -/
def accept_primary (c : String) : Bool := 16 ≤ pyLen c

/-- Alternative-loop acceptance (line 1045): `len(cleaned) >= 16 and cleaned.isalnum()`. -/
def accept_alt (c : String) : Bool := (16 ≤ pyLen c) && pyIsAlnum c

/-- The primary candidate texts, `div_index` 9 to 13 (line 1003). -/
def primary_candidates (page : AuthPage) : List (Option String) :=
  [9, 10, 11, 12, 13].map page.primaryText

/-- The alternative candidate texts: the 20 entries of `alternative_xpaths`
(5 static at lines 1023-1029, then 3 per `div_index` 9 to 13 at lines 1031-1037). -/
def alt_candidates (page : AuthPage) : List (Option String) :=
  (List.range 20).map page.altText

/-- The extraction core of `setup_authenticator` (lines 1000-1050). -/
def extract_secret_key (page : AuthPage) : Option String :=
  match firstAccepted accept_primary (primary_candidates page) with
  | some s => some s
  | none => firstAccepted accept_alt (alt_candidates page)

/-- The `(success, secret_key, error_code, error_message)` quadruple
`setup_authenticator` derives from the extraction result (lines 1052-1102).
When no candidate is accepted the definite failure Step Result is returned
(lines 1052-1054); otherwise success with the extracted secret. -/
def setup_authenticator (page : AuthPage) :
    Bool × Option String × Option String × Option String :=
  match extract_secret_key page with
  | none => (false, none, some "SECRET_EXTRACTION_FAILED", some "Failed to extract TOTP secret key")
  | some k => (true, some k, none, none)

/-! ## TOTP code generation and the login OTP retry loop (main.py lines 809-869)

`pyotp.TOTP(clean_secret).now()` is an external, RFC 6238 collaborator: the
code it returns is a function of the secret and of the 30-second time-step
counter `t / 30` of the current Unix time `t`.  The digest computation is
abstracted as the parameter `hotp`. -/

/-- `pyotp.TOTP(secret).now()` at Unix time `t`: a code depending on the
secret and on the 30-second window counter `t / 30` only. -/
def totp_now (hotp : String → Nat → String) (secret : String) (t : Nat) : String :=
  hotp secret (t / 30)

/-- Environment of the OTP submission loop: current page URL, Unix time,
the abstract RFC 6238 digest, whether an attempt raises (the whole loop
body sits in a `try`), and the state transitions of entering/submitting a
code (lines 824-847, including the 5-second post-submit sleep) and of the
3-second wait before a retry (line 858). -/
structure OtpEnv (S : Type) where
  url : S → String
  time : S → Nat
  hotp : String → Nat → String
  raises : S → Nat → Bool
  raiseMsg : S → Nat → String
  raiseTick : S → S
  submitTick : S → String → S
  retrySleep : S → S

/-- Outcome of the OTP retry loop inside `login_google`: either an early
`return` with `(error_code, error_message)`, or control continuing the
outer wait loop (after `break` on success, line 853, or natural loop end). -/
inductive OtpOut (S : Type) where
  | ret (error_code : String) (error_message : String) (s : S)
  | cont (s : S)
  deriving DecidableEq

/-- The `(error_code, error_message)` pair of an early return, when any. -/
def OtpOut.retCode {S : Type} : OtpOut S → Option (String × String)
  | .ret c m _ => some (c, m)
  | .cont _ => none

/-- The `for retry in range(3)` loop of lines 815-866, called with
`retries = [0, 1, 2]`.  Also returns the list of `(code, generation time)`
pairs actually submitted.  Each iteration recomputes
`clean_secret = known_totp_secret.replace(" ", "").upper()` and generates a
fresh code `totp.now()` at the current time (lines 818-821); if after
submission the URL still contains `challenge/totp`, the loop retries
(`retry < 2`) or returns `OTP_REJECTED` (lines 851-861); an exception on
the final attempt returns `OTP_SUBMISSION_ERROR` (lines 863-866). -/
def otp_retry_loop {S : Type} (env : OtpEnv S) (known_totp_secret : String) :
    List Nat → S → List (String × Nat) → OtpOut S × List (String × Nat)
  | [], s, gens => (.cont s, gens)
  | retry :: rest, s, gens =>
      if env.raises s retry then
        if retry == 2 then (.ret "OTP_SUBMISSION_ERROR" (env.raiseMsg s retry) (env.raiseTick s), gens)
        else otp_retry_loop env known_totp_secret rest (env.raiseTick s) gens
      else
        let clean_secret := pyUpper (pyRemoveSpaces known_totp_secret)
        let t := env.time s
        let otp_code := totp_now env.hotp clean_secret t
        let s' := env.submitTick s otp_code
        let gens' := gens ++ [(otp_code, t)]
        if !pyIn "challenge/totp" (env.url s') then (.cont s', gens')
        else if retry < 2 then otp_retry_loop env known_totp_secret rest (env.retrySleep s') gens'
        else (.ret "OTP_REJECTED" "OTP code was rejected by Google" s', gens')

/-! ## The per-user Outcome Record (main.py return dictionaries) -/

/-- The per-user outcome dictionary built by `handler` and
`process_single_user`.  Fields that some return sites omit (the batch
inline record of lines 1672-1678 has no `step_completed`, `error_step`
or `timings` key; the single-mode record of lines 1709-1717 has no
`email` key) are modelled as `Option` with `none` for an absent key. -/
structure OutcomeRecord where
  email : Option String
  status : String
  step_completed : Option String
  error_step : Option String
  error_message : Option String
  app_password : Option String
  secret_key : Option String
  timings : Option (List (String × Nat))
  deriving DecidableEq

/-! ## Login: `login_google` (main.py lines 582-889)

The browser is an abstract state type `S`.  Everything the page does in
response to clicks, navigations and waits is environment-chosen; the URL
classification, the branch structure, the retry bound and every early
`return` of `login_google` are translated from the source.  The email and
password influence the run only through the page environment. -/

/-- Environment of `login_google`.  The pre-loop phases (navigation to the
sign-in page, email entry, password-field lookup, password entry) are
summarised by their observable outcome; the wait loop of lines 668-879 then
reads the URL each tick and classifies it. -/
structure LoginEnv (S : Type) where
  /-- `driver.get(signin url)` succeeds (lines 595-604) -/
  nav_ok : Bool
  nav_err : String
  /-- email entry and submission raise nothing (lines 607-627); an exception
  there is caught by the outer handler as `LOGIN_EXCEPTION` (lines 886-889) -/
  email_ok : Bool
  email_err : String
  /-- `find_element_with_fallback` finds a password input (lines 632-640) -/
  password_field_found : Bool
  /-- password entry and submission raise nothing (lines 642-659) -/
  password_ok : Bool
  password_err : String
  /-- state after the pre-loop phases -/
  startTick : S → S
  /-- `driver.current_url` readable this tick (lines 670-675) -/
  url_ok : S → Bool
  url_err : S → String
  url : S → String
  /-- `time.sleep(wait_interval)` at the top of each tick (line 669) -/
  sleepTick : S → S
  /-- effect of the speedbump click block (lines 688-729) -/
  speedbumpTick : S → S
  /-- effect of `driver.get(two-step-verification setup)` (lines 732-739) -/
  twosvTick : S → S
  /-- a continue/next/skip button was found on a `challenge/pwd` page (lines 746-774) -/
  pwdClicked : S → Bool
  pwdClickTick : S → S
  /-- direct navigation to myaccount from `challenge/pwd` (lines 779-786);
  `none` models the `driver.get` raising, after which control falls through
  to the TOTP check -/
  pwdNav : S → Option S
  /-- an OTP input field is present on the `challenge/totp` page (lines 793-807) -/
  otp_input : S → Bool
  /-- environment of the OTP submission loop (lines 815-866) -/
  otp : OtpEnv S

/-- The success-domain list of line 683. -/
def login_success_domains : List String :=
  ["myaccount.google.com", "mail.google.com", "accounts.google.com/b/0",
   "accounts.google.com/servicelogin"]

/-- The post-password wait loop of `login_google` (lines 664-884):
`for attempt in range(30)`, each tick sleeping, reading the URL and
classifying it.  `fuel` is the number of attempts left and `lastUrl` the
most recently read URL (used in the timeout message).  Returns the
`(success, error_code, error_message)` triple and the final state. -/
def login_wait_loop {S : Type} (env : LoginEnv S) (known_totp_secret : Option String) :
    Nat → S → String → (Bool × Option String × Option String) × S
  | 0, s, lastUrl =>
      -- lines 881-884
      ((false, some "LOGIN_TIMEOUT",
        some ("Login timed out after 90 seconds. Last URL: " ++ lastUrl)), s)
  | fuel + 1, s, _ =>
      let s := env.sleepTick s
      if !env.url_ok s then
        ((false, some "driver_crashed",
          some ("Driver crashed while checking URL: " ++ env.url_err s)), s)
      else
        let u := env.url s
        -- lines 678-680
        if pyIn "speedbump/idvreenable" u || pyIn "idvreenable" u then
          ((false, some "ID_VERIFICATION_REQUIRED", some "Manual ID verification required"), s)
        -- lines 683-685
        else if login_success_domains.any (fun d => pyIn d u) then
          ((true, none, none), s)
        -- lines 688-729
        else if pyIn "speedbump" u then
          login_wait_loop env known_totp_secret fuel (env.speedbumpTick s) u
        -- lines 732-739
        else if pyIn "twosvrequired" u then
          login_wait_loop env known_totp_secret fuel (env.twosvTick s) u
        -- lines 742-875
        else if pyIn "challenge" u || pyIn "signin/challenge" u then
          -- challenge/pwd sub-branch (lines 746-786): a click or a successful
          -- direct navigation continues the outer loop; a raising navigation
          -- falls through to the TOTP check
          let afterPwd : Option S :=
            if pyIn "challenge/pwd" u then
              if env.pwdClicked s then some (env.pwdClickTick s)
              else env.pwdNav s
            else none
          match afterPwd with
          | some s' => login_wait_loop env known_totp_secret fuel s' u
          | none =>
            -- lines 789-871
            if pyIn "challenge/totp" u then
              if env.otp_input s then
                match known_totp_secret with
                | none =>
                    -- lines 810-812
                    ((false, some "2FA_REQUIRED", some "2FA required but secret is unknown"), s)
                | some ks =>
                    match otp_retry_loop env.otp ks [0, 1, 2] s [] with
                    | (.ret c m s', _) => ((false, some c, some m), s')
                    | (.cont s', _) => login_wait_loop env known_totp_secret fuel s' u
              else
                -- no OTP input found (line 871) and unhandled challenge note
                -- (lines 873-875): keep waiting
                login_wait_loop env known_totp_secret fuel s u
            else
              -- other challenge types (lines 873-875): keep waiting
              login_wait_loop env known_totp_secret fuel s u
        else
          -- unrecognized page (lines 877-879): keep waiting
          login_wait_loop env known_totp_secret fuel s u

/-- `login_google(driver, email, password, known_totp_secret=None)`,
lines 582-889.  The email and password reach the page through the
environment only; the function returns `(success, error_code,
error_message)` together with the final browser state. -/
def login_google {S : Type} (env : LoginEnv S) (_email _password : String)
    (known_totp_secret : Option String) (s0 : S) :
    (Bool × Option String × Option String) × S :=
  if !env.nav_ok then ((false, some "navigation_failed", some env.nav_err), s0)
  else if !env.email_ok then ((false, some "LOGIN_EXCEPTION", some env.email_err), s0)
  else if !env.password_field_found then
    ((false, some "LOGIN_PASSWORD_FIELD_NOT_FOUND",
      some "Password field not found after email submission"), s0)
  else if !env.password_ok then
    ((false, some "LOGIN_EXCEPTION", some env.password_err), s0)
  else
    login_wait_loop env known_totp_secret 30 (env.startTick s0) "None"

/-! ## Post-login interstitial handler: `handle_post_login_pages`
(main.py lines 402-579) -/

/-- A recorded direct navigation to the target URL performed by the
interstitial handler on one of its final attempts (lines 564-570). -/
inductive NavEvent where
  | directNav (attempt : Nat)
  deriving DecidableEq

/-- Environment of `handle_post_login_pages`: URL and marker-element
classification plus the state transitions of each click block.  The whole
iteration body sits in a `try` whose handler only logs (lines 572-574);
`bodyRaises` selects that path. -/
structure PostLoginEnv (S : Type) where
  url : S → String
  sleepTick : S → S
  bodyRaises : S → Bool
  crashTick : S → S
  /-- effect of the speedbump click block (lines 423-489) -/
  speedbumpTick : S → S
  /-- `element_exists(driver, h1-contains-Verify)` (line 492) -/
  verifyMarker : S → Bool
  verifyTick : S → S
  /-- `element_exists(driver, h1-contains-Review)` (line 519) -/
  reviewMarker : S → Bool
  reviewTick : S → S
  /-- effect of the generic button block (lines 543-561) -/
  genericTick : S → S
  /-- effect of `driver.get(myaccount)` and the following sleep (lines 566-568) -/
  navTargetTick : S → S

/-- The attempt loop of `handle_post_login_pages` (lines 410-579), called
with `attempts = range(max_attempts)`.  Records a `NavEvent` for every
direct navigation forced on the final three attempts.  Returns the
`(success, error_code, error_message)` triple, the final state and the
recorded navigation events. -/
def hplp_loop {S : Type} (env : PostLoginEnv S) (max_attempts : Nat) :
    List Nat → S → List NavEvent → (Bool × Option String × Option String) × S × List NavEvent
  | [], s, evs =>
      -- lines 576-579
      ((false, some "POST_LOGIN_TIMEOUT",
        some ("Could not bypass intermediate pages. Last URL: " ++ env.url s)), s, evs)
  | attempt :: rest, s, evs =>
      let s := env.sleepTick s
      if env.bodyRaises s then
        -- lines 572-574: the exception is logged and the loop continues
        hplp_loop env max_attempts rest (env.crashTick s) evs
      else
        let u := env.url s
        -- line 418: the only success return
        if pyIn "myaccount.google.com" u then ((true, none, none), s, evs)
        -- lines 423-489
        else if pyIn "speedbump" u then
          hplp_loop env max_attempts rest (env.speedbumpTick s) evs
        -- lines 492-516
        else if pyIn "verify" (pyLower u) || env.verifyMarker s then
          hplp_loop env max_attempts rest (env.verifyTick s) evs
        -- lines 519-540
        else if env.reviewMarker s then
          hplp_loop env max_attempts rest (env.reviewTick s) evs
        else
          -- lines 543-561 then 563-570
          let s := env.genericTick s
          if max_attempts - 3 ≤ attempt then
            hplp_loop env max_attempts rest (env.navTargetTick s) (evs ++ [.directNav attempt])
          else
            hplp_loop env max_attempts rest s evs

/-- `handle_post_login_pages(driver, max_attempts=20)`, lines 402-579. -/
def handle_post_login_pages {S : Type} (env : PostLoginEnv S) (max_attempts : Nat) (s0 : S) :
    (Bool × Option String × Option String) × S × List NavEvent :=
  hplp_loop env max_attempts (List.range max_attempts) s0 []

/-! ## Pipeline orchestrator: `process_single_user` (main.py lines 1723-1906)

Each navigation step of the pipeline interacts with the uncontrolled page,
so its `(success, ...)` outcome is supplied by the environment; the
orchestration — the step order, the first-failure return sites, the
timing dictionary, the secret masking and the sink calls — is translated
from the source.  `login` is a function of the optional known TOTP secret
because `login_google` takes that parameter; the call site at line 1748
passes no secret, which the model mirrors by applying `login` to `none`. -/

structure PipeEnv where
  /-- `get_chrome_driver()` (line 1741); an exception propagates to the
  catch-all handler of lines 1880-1896 -/
  driver_init : Except String Unit
  /-- outcome of `login_google(driver, email, password, known_totp_secret)` -/
  login : String → String → Option String → Bool × Option String × Option String
  /-- outcome of `setup_authenticator(driver, email)` -/
  setup_auth : String → Bool × Option String × Option String × Option String
  /-- environment of `upload_secret_to_sftp` -/
  sftp : SftpCfg
  /-- outcome of `verify_authenticator_setup(driver, email, secret_key)` -/
  verify_auth : String → Option String → Bool × Option String × Option String
  /-- outcome of `enable_two_step_verification(driver, email)` -/
  enable_2sv : String → Bool × Option String × Option String
  /-- outcome of `generate_app_password(driver, email)` -/
  gen_app_password : String → Bool × Option String × Option String × Option String
  /-- environment of `save_to_dynamodb` -/
  dynamo : DynamoCfg
  /-- wall-clock duration attributed to each named step -/
  dur : String → Nat

/-- `process_single_user(email, password, batch_start_time)`,
lines 1723-1906: run the steps in order, stop at the first failure, always
return an outcome record; also collect the external-store effects. -/
def process_single_user (env : PipeEnv) (email password : String) :
    OutcomeRecord × List Effect :=
  match env.driver_init with
  | .error e =>
      -- lines 1880-1896 with step_completed still "init"
      ({ email := some email, status := "failed", step_completed := some "init",
         error_step := some "init",
         error_message := some ("Unhandled exception: " ++ e),
         app_password := none, secret_key := none,
         timings := some [("total", env.dur "total")] }, [.driverLaunch])
  | .ok _ =>
    let t1 := [("driver_init", env.dur "driver_init")]
    -- Step 1: login (lines 1745-1762); the call passes no known TOTP secret
    let (lok, _lc, lmsg) := env.login email password none
    let t2 := t1 ++ [("login", env.dur "login")]
    if !lok then
      ({ email := some email, status := "failed", step_completed := some "login",
         error_step := some "login", error_message := lmsg,
         app_password := none, secret_key := none, timings := some t2 }, [.driverLaunch])
    else
      -- Step 2: setup authenticator (lines 1764-1781)
      let (aok, secret_key, _ac, amsg) := env.setup_auth email
      let t3 := t2 ++ [("authenticator_setup", env.dur "authenticator_setup")]
      if !aok then
        ({ email := some email, status := "failed",
           step_completed := some "authenticator_setup",
           error_step := some "authenticator_setup", error_message := amsg,
           app_password := none, secret_key := none, timings := some t3 }, [.driverLaunch])
      else
        -- Step 2.5: SFTP upload (lines 1783-1789); failure is logged only,
        -- but an uncaught exception reaches the catch-all of lines 1880-1896
        match upload_secret_to_sftp env.sftp email secret_key with
        | (.raised e, sftpEffs) =>
            ({ email := some email, status := "failed",
               step_completed := some "authenticator_setup",
               error_step := some "authenticator_setup",
               error_message := some ("Unhandled exception: " ++ e),
               app_password := none, secret_key := mask_if_truthy secret_key,
               timings := some (t3 ++ [("total", env.dur "total")]) },
             [.driverLaunch] ++ sftpEffs)
        | (.ret _host _path, sftpEffs) =>
          let t4 := t3 ++ [("sftp_upload", env.dur "sftp_upload")]
          -- Step 3a: verify authenticator setup (lines 1791-1808)
          let (vok, _vc, vmsg) := env.verify_auth email secret_key
          let t5 := t4 ++ [("verify_authenticator", env.dur "verify_authenticator")]
          if !vok then
            ({ email := some email, status := "failed",
               step_completed := some "verify_authenticator",
               error_step := some "verify_authenticator", error_message := vmsg,
               app_password := none, secret_key := mask_if_truthy secret_key,
               timings := some t5 }, [.driverLaunch] ++ sftpEffs)
          else
            -- Step 3b: enable 2-Step Verification (lines 1810-1827)
            let (eok, _ec2, emsg2) := env.enable_2sv email
            let t6 := t5 ++ [("enable_2sv", env.dur "enable_2sv")]
            if !eok then
              ({ email := some email, status := "failed",
                 step_completed := some "enable_2sv",
                 error_step := some "enable_2sv", error_message := emsg2,
                 app_password := none, secret_key := mask_if_truthy secret_key,
                 timings := some t6 }, [.driverLaunch] ++ sftpEffs)
            else
              -- Step 4: generate app password (lines 1833-1850)
              let (gok, app_password, _gc, gmsg) := env.gen_app_password email
              let t7 := t6 ++ [("app_password", env.dur "app_password")]
              if !gok then
                ({ email := some email, status := "failed",
                   step_completed := some "app_password",
                   error_step := some "app_password", error_message := gmsg,
                   app_password := none, secret_key := mask_if_truthy secret_key,
                   timings := some t7 }, [.driverLaunch] ++ sftpEffs)
              else
                -- Step 4.5: DynamoDB save (lines 1852-1860); failure logged only
                let (_dok, dynEffs) := save_to_dynamodb env.dynamo email app_password secret_key
                let t8 := t7 ++ [("dynamodb_save", env.dur "dynamodb_save")]
                let t9 := t8 ++ [("total", env.dur "total")]
                -- lines 1862-1878
                ({ email := some email, status := "success",
                   step_completed := some "completed",
                   error_step := none, error_message := none,
                   app_password := app_password,
                   secret_key := mask_if_truthy secret_key,
                   timings := some t9 }, [.driverLaunch] ++ sftpEffs ++ dynEffs)

/-! ## Lambda entry point: `handler` (main.py lines 1613-1720) -/

/-- One entry of the batch `users` list; dictionary keys may be absent. -/
structure BatchUser where
  email : Option String
  password : Option String
  deriving DecidableEq

/-- The invocation event.  `known_totp_secret` is part of the documented
single-mode contract; the handler never reads it. -/
structure Event where
  users : Option (List BatchUser)
  email : Option String
  password : Option String
  known_totp_secret : Option String

/-- Environment of `handler`: the pipeline environment, the single-mode
fallback environment variables (lines 1705-1706), the `KNOWN_TOTP_SECRET`
environment variable (documented but never read by main.py), and the
wall-clock total batch time. -/
structure HandlerEnv where
  pipe : PipeEnv
  GW_EMAIL : Option String
  GW_PASSWORD : Option String
  KNOWN_TOTP_SECRET : Option String
  total_time : Nat

/-- The handler response: the over-limit / invalid batch shape of
lines 1650-1661, the batch summary of lines 1694-1701, or the single-mode
record. -/
inductive HandlerResponse where
  | invalidBatch (status : String) (error_message : String) (results : List OutcomeRecord)
  | batch (status : String) (batch_size success_count failed_count total_time : Nat)
      (results : List OutcomeRecord)
  | single (record : OutcomeRecord)
  deriving DecidableEq

/-- Results list of a response (empty for a single-mode response wrapper,
whose record is the whole payload). -/
def HandlerResponse.records : HandlerResponse → List OutcomeRecord
  | .invalidBatch _ _ rs => rs
  | .batch _ _ _ _ _ rs => rs
  | .single r => [r]

/-- Per-entry step of the batch loop (lines 1667-1683): strip the entry
fields, emit the inline failure record when either is missing (lines
1671-1679), otherwise run `process_single_user`. -/
def batch_user_step (pipe : PipeEnv) (u : BatchUser) : OutcomeRecord × List Effect :=
  let email := pyStrip (u.email.getD "")
  let password := pyStrip (u.password.getD "")
  if pyLen email == 0 || pyLen password == 0 then
    ({ email := some (if pyLen email == 0 then "unknown" else email),
       status := "failed", step_completed := none, error_step := none,
       error_message := some "Email or password not provided",
       app_password := none, secret_key := none, timings := none }, [])
  else process_single_user pipe email password

/-- Single-user mode (lines 1703-1720): fall back to the `GW_EMAIL` /
`GW_PASSWORD` environment variables when the event keys are absent
(`event.get(key, os.environ.get(...))`), fail on missing credentials,
otherwise run the pipeline. -/
def handler_single (env : HandlerEnv) (event : Event) : HandlerResponse × List Effect :=
  let email := event.email <|> env.GW_EMAIL
  let password := event.password <|> env.GW_PASSWORD
  if pyLen (email.getD "") == 0 || pyLen (password.getD "") == 0 then
    (.single { email := none, status := "failed", step_completed := some "init",
               error_step := some "init",
               error_message := some "Email or password not provided in event or environment",
               app_password := none, secret_key := none, timings := some [] }, [])
  else
    let (r, effs) := process_single_user env.pipe (email.getD "") (password.getD "")
    (.single r, effs)

/-- `handler(event, context)`, lines 1613-1720.  `event.get("users")` being
falsy — absent or an empty list — selects single-user mode; a list of more
than 10 users is rejected before any user is processed; otherwise each user
is processed sequentially in list order.  (The `isinstance` guard of line
1649 cannot fire in this typed model, where a present `users` key is a
list.) -/
def handler (env : HandlerEnv) (event : Event) : HandlerResponse × List Effect :=
  match event.users with
  | none => handler_single env event
  | some users =>
    if users.isEmpty then handler_single env event
    else if 10 < users.length then
      (.invalidBatch "failed"
        ("Too many users in batch: " ++ pyStr users.length ++ ". Maximum is 10.") [], [])
    else
      let outs := users.map (batch_user_step env.pipe)
      let results := outs.map Prod.fst
      let effects := (outs.map Prod.snd).flatten
      let success_count := results.countP (fun r => r.status == "success")
      let failed_count := results.length - success_count
      (.batch "completed" users.length success_count failed_count env.total_time results,
       effects)

/-! ## Concrete environments used by the theorems below -/

/-- An SFTP configuration with full credentials, the default port, remote
directory `/d` and a working connection. -/
def sftpCfgOk : SftpCfg :=
  { SECRET_SFTP_HOST := some "h", SECRET_SFTP_PORT := none,
    SECRET_SFTP_USER := some "u", SECRET_SFTP_PASSWORD := some "p",
    SECRET_SFTP_REMOTE_DIR := some "/d", conn_ok := true }

/-- A DynamoDB configuration whose put succeeds. -/
def dynamoCfgOk : DynamoCfg :=
  { DYNAMODB_TABLE_NAME := none, put_ok := true, now := 1700000000 }

/-- A pipeline environment in which every navigation step and both sinks
succeed, the extracted secret being `ABCDEFGHIJKLMNOP`. -/
def pipeAllOk : PipeEnv :=
  { driver_init := .ok (),
    login := fun _ _ _ => (true, none, none),
    setup_auth := fun _ => (true, some "ABCDEFGHIJKLMNOP", none, none),
    sftp := sftpCfgOk,
    verify_auth := fun _ _ => (true, none, none),
    enable_2sv := fun _ => (true, none, none),
    gen_app_password := fun _ => (true, some "abcd-efgh-ijkl-mnop", none, none),
    dynamo := dynamoCfgOk,
    dur := fun _ => 1 }

/-- `pipeAllOk` with a non-numeric `SECRET_SFTP_PORT` value. -/
def pipeBadPort : PipeEnv :=
  { pipeAllOk with sftp := { sftpCfgOk with SECRET_SFTP_PORT := some "abc" } }

/-- An authenticator page whose reference-XPath candidate at `div` index 9
holds a 17-character text containing an exclamation mark; every other
candidate is absent. -/
def authPageBang : AuthPage :=
  { primaryText := fun i => if i == 9 then some "ABCD EFGH!JKL MNOPQ" else none,
    altText := fun _ => none }

/-- An OTP environment over `Nat` states (the state is the current Unix
time): submission takes the 5-second post-submit sleep, a retry waits a
further 3 seconds, the page always stays on the TOTP challenge, and the
RFC 6238 collaborator returns a code determined by the 30-second window. -/
def otpEnvSameWindow : OtpEnv Nat :=
  { url := fun _ => "https://accounts.google.com/signin/challenge/totp",
    time := fun s => s,
    hotp := fun _ w => "code" ++ pyStr w,
    raises := fun _ _ => false,
    raiseMsg := fun _ _ => "",
    raiseTick := fun s => s,
    submitTick := fun s _ => s + 5,
    retrySleep := fun s => s + 3 }

/-- An OTP environment over `Bool` states (`true` = past the challenge):
any submitted code is accepted. -/
def otpEnvAccepting : OtpEnv Bool :=
  { url := fun s => if s then "https://myaccount.google.com/" else
      "https://accounts.google.com/signin/challenge/totp",
    time := fun _ => 0,
    hotp := fun _ _ => "123456",
    raises := fun _ _ => false,
    raiseMsg := fun _ _ => "",
    raiseTick := fun s => s,
    submitTick := fun _ _ => true,
    retrySleep := fun s => s }

/-- A login environment (over the one-point state) that presents a TOTP
challenge with a visible OTP input on every tick. -/
def loginEnvTotpChallenge : LoginEnv Unit :=
  { nav_ok := true, nav_err := "",
    email_ok := true, email_err := "",
    password_field_found := true,
    password_ok := true, password_err := "",
    startTick := fun s => s,
    url_ok := fun _ => true, url_err := fun _ => "",
    url := fun _ => "https://accounts.google.com/signin/challenge/totp?x",
    sleepTick := fun s => s,
    speedbumpTick := fun s => s,
    twosvTick := fun s => s,
    pwdClicked := fun _ => false,
    pwdClickTick := fun s => s,
    pwdNav := fun s => some s,
    otp_input := fun _ => true,
    otp := { url := fun _ => "https://accounts.google.com/signin/challenge/totp?x",
             time := fun _ => 0, hotp := fun _ _ => "123456",
             raises := fun _ _ => false, raiseMsg := fun _ _ => "",
             raiseTick := fun s => s, submitTick := fun s _ => s,
             retrySleep := fun s => s } }

/-- A login environment over `Bool` states (`true` = past the challenge):
the first tick shows a TOTP challenge, a submitted code is accepted, and the
following tick is on the target account page. -/
def loginEnvTotpSolvable : LoginEnv Bool :=
  { nav_ok := true, nav_err := "",
    email_ok := true, email_err := "",
    password_field_found := true,
    password_ok := true, password_err := "",
    startTick := fun s => s,
    url_ok := fun _ => true, url_err := fun _ => "",
    url := fun s => if s then "https://myaccount.google.com/" else
      "https://accounts.google.com/signin/challenge/totp",
    sleepTick := fun s => s,
    speedbumpTick := fun s => s,
    twosvTick := fun s => s,
    pwdClicked := fun _ => false,
    pwdClickTick := fun s => s,
    pwdNav := fun s => some s,
    otp_input := fun _ => true,
    otp := otpEnvAccepting }

/-- The pipeline environment whose login step is `login_google` run against
`loginEnvTotpChallenge`; all later steps succeed. -/
def pipeTotpChallenge : PipeEnv :=
  { pipeAllOk with login := fun e p ks => (login_google loginEnvTotpChallenge e p ks ()).1 }

/-- Handler environment for the known-TOTP-secret scenario: the
`KNOWN_TOTP_SECRET` environment variable is set and the login step faces a
TOTP challenge. -/
def henvTotp : HandlerEnv :=
  { pipe := pipeTotpChallenge, GW_EMAIL := none, GW_PASSWORD := none,
    KNOWN_TOTP_SECRET := some "GEZDGNBVGY3TQOJQ", total_time := 0 }

/-- A single-mode event that supplies credentials and a known TOTP secret. -/
def eventTotp : Event :=
  { users := none, email := some "user@example.com", password := some "pw",
    known_totp_secret := some "GEZDGNBVGY3TQOJQ" }

/-- A post-login environment (over the one-point state) that never reaches
the target, never raises and never matches any interstitial class. -/
def postLoginStuck : PostLoginEnv Unit :=
  { url := fun _ => "https://accounts.google.com/signin/somewhere",
    sleepTick := fun s => s,
    bodyRaises := fun _ => false,
    crashTick := fun s => s,
    speedbumpTick := fun s => s,
    verifyMarker := fun _ => false,
    verifyTick := fun s => s,
    reviewMarker := fun _ => false,
    reviewTick := fun s => s,
    genericTick := fun s => s,
    navTargetTick := fun s => s }

/-- A login environment (over the one-point state) that never leaves an
unrecognized page: the wait loop can only time out. -/
def loginEnvStuck : LoginEnv Unit :=
  { nav_ok := true, nav_err := "",
    email_ok := true, email_err := "",
    password_field_found := true,
    password_ok := true, password_err := "",
    startTick := fun s => s,
    url_ok := fun _ => true, url_err := fun _ => "",
    url := fun _ => "https://example.org/unrecognized",
    sleepTick := fun s => s,
    speedbumpTick := fun s => s,
    twosvTick := fun s => s,
    pwdClicked := fun _ => false,
    pwdClickTick := fun s => s,
    pwdNav := fun s => some s,
    otp_input := fun _ => false,
    otp := { url := fun _ => "", time := fun _ => 0, hotp := fun _ _ => "",
             raises := fun _ _ => false, raiseMsg := fun _ _ => "",
             raiseTick := fun s => s, submitTick := fun s _ => s,
             retrySleep := fun s => s } }

/-- A batch list of eleven identical user entries. -/
def elevenUsers : List BatchUser :=
  List.replicate 11 { email := some "a@b.c", password := some "pw" }

/-- A two-entry batch whose first entry lacks a password. -/
def twoUsers : List BatchUser :=
  [{ email := some "a@b.c", password := none },
   { email := some "d@e.f", password := some "pw" }]

/-- Accessor: the `batch_size` field of a batch response. -/
def HandlerResponse.batchSize : HandlerResponse → Option Nat
  | .batch _ bs _ _ _ _ => some bs
  | _ => none

/-- Accessor: the `success_count` field of a batch response. -/
def HandlerResponse.successCount : HandlerResponse → Option Nat
  | .batch _ _ sc _ _ _ => some sc
  | _ => none

/-- Accessor: the `failed_count` field of a batch response. -/
def HandlerResponse.failedCount : HandlerResponse → Option Nat
  | .batch _ _ _ fc _ _ => some fc
  | _ => none

/-- An authenticator page on which no candidate element is present. -/
def authPageEmpty : AuthPage :=
  { primaryText := fun _ => none, altText := fun _ => none }

/-- `pipeAllOk` with both persistence sinks failing (SFTP connection down,
DynamoDB put raising). -/
def pipeSinksFail : PipeEnv :=
  { pipeAllOk with
    sftp := { sftpCfgOk with conn_ok := false },
    dynamo := { dynamoCfgOk with put_ok := false } }

/-! ## Helper lemmas -/

/-- With a parsable port, full credentials, a working connection and a
present secret, the SFTP sink writes exactly one file, at
`<rstrip(remote_dir)>/<alias>/<email>_authenticator_secret_key.txt`, whose
content is the raw secret. -/
theorem upload_secret_to_sftp_ok (cfg : SftpCfg) (email sk : String)
    (hport : (pyInt (cfg.SECRET_SFTP_PORT.getD "22")).isSome = true)
    (hhost : pyLen (cfg.SECRET_SFTP_HOST.getD "46.224.9.127") ≠ 0)
    (huser : pyLen (cfg.SECRET_SFTP_USER.getD "") ≠ 0)
    (hpass : pyLen (cfg.SECRET_SFTP_PASSWORD.getD "") ≠ 0)
    (hconn : cfg.conn_ok = true) :
    upload_secret_to_sftp cfg email (some sk) =
      (SftpRet.ret (some (cfg.SECRET_SFTP_HOST.getD "46.224.9.127"))
        (some (pyRstripSlash (cfg.SECRET_SFTP_REMOTE_DIR.getD "/home/brightmindscampus/") ++ "/" ++
          sftp_alias email ++ "/" ++ (email ++ "_authenticator_secret_key.txt"))),
       [Effect.sftpWrite (cfg.SECRET_SFTP_HOST.getD "46.224.9.127")
          (pyRstripSlash (cfg.SECRET_SFTP_REMOTE_DIR.getD "/home/brightmindscampus/") ++ "/" ++
            sftp_alias email ++ "/" ++ (email ++ "_authenticator_secret_key.txt")) sk]) := by
  obtain ⟨p, hp⟩ := Option.isSome_iff_exists.mp hport
  have h1 : (pyLen (cfg.SECRET_SFTP_HOST.getD "46.224.9.127") == 0) = false := by
    simp [hhost]
  have h2 : (pyLen (cfg.SECRET_SFTP_USER.getD "") == 0) = false := by simp [huser]
  have h3 : (pyLen (cfg.SECRET_SFTP_PASSWORD.getD "") == 0) = false := by simp [hpass]
  unfold upload_secret_to_sftp
  rw [hp]
  simp only [h1, h2, h3, hconn, Bool.false_or, Bool.or_self, if_false, Bool.false_eq_true]

/-- With a parsable port value the SFTP sink never raises. -/
theorem upload_secret_to_sftp_not_raised (cfg : SftpCfg) (email : String)
    (sk : Option String) (hport : (pyInt (cfg.SECRET_SFTP_PORT.getD "22")).isSome = true) :
    ∀ m, (upload_secret_to_sftp cfg email sk).1 ≠ SftpRet.raised m := by
  intro m
  obtain ⟨p, hp⟩ := Option.isSome_iff_exists.mp hport
  unfold upload_secret_to_sftp
  rw [hp]
  dsimp only
  split
  · simp
  · split
    · simp
    · simp

/-! ## Claim C9: the remote-file sink layout -/

/-- C9 (amended): on a successful upload the remote-file sink writes exactly
one plain-text file per account, whose content is the raw (unmasked) secret,
at the path `<rstrip(remote_dir)>/<local-part>/<full-email>_authenticator_secret_key.txt`:
a per-account directory named from the local-part, with the file name built
from the full email address, not a file `<remote_dir>/<local-part>_<suffix>.txt`
directly under the remote directory. -/
theorem sftp_sink_writes_one_raw_file_per_account (cfg : SftpCfg) (email sk : String)
    (hport : (pyInt (cfg.SECRET_SFTP_PORT.getD "22")).isSome = true)
    (hhost : pyLen (cfg.SECRET_SFTP_HOST.getD "46.224.9.127") ≠ 0)
    (huser : pyLen (cfg.SECRET_SFTP_USER.getD "") ≠ 0)
    (hpass : pyLen (cfg.SECRET_SFTP_PASSWORD.getD "") ≠ 0)
    (hconn : cfg.conn_ok = true) :
    (upload_secret_to_sftp cfg email (some sk)).2 =
      [Effect.sftpWrite (cfg.SECRET_SFTP_HOST.getD "46.224.9.127")
        (pyRstripSlash (cfg.SECRET_SFTP_REMOTE_DIR.getD "/home/brightmindscampus/") ++ "/" ++
          sftp_alias email ++ "/" ++ (email ++ "_authenticator_secret_key.txt")) sk] := by
  rw [upload_secret_to_sftp_ok cfg email sk hport hhost huser hpass hconn]

/-- C9 witness: concrete successful upload — one file, under the per-alias
directory, named from the full email, containing the raw secret. -/
theorem sftp_sink_writes_one_raw_file_per_account_witness :
    (upload_secret_to_sftp sftpCfgOk "user@example.com" (some "SECRETKEY16CHAR0")).2 =
      [Effect.sftpWrite "h" "/d/user/user@example.com_authenticator_secret_key.txt"
        "SECRETKEY16CHAR0"] :=
  (sftp_sink_writes_one_raw_file_per_account sftpCfgOk "user@example.com" "SECRETKEY16CHAR0"
    (by decide) (by decide) (by decide) (by decide) rfl).trans (by decide)

/-- C9 counterexample: for the account `user@example.com` with remote
directory `/d`, the single file written sits at
`/d/user/user@example.com_authenticator_secret_key.txt`, which does not have
the claimed shape `<remote_dir>/<local-part>_<suffix>.txt` for any suffix:
the character after `<remote_dir>/<local-part>` is a slash (a subdirectory),
not an underscore. -/
theorem sftp_sink_path_shape_counterexample :
    (upload_secret_to_sftp sftpCfgOk "user@example.com" (some "SECRETKEY16CHAR0")).2 =
      [Effect.sftpWrite "h" "/d/user/user@example.com_authenticator_secret_key.txt"
        "SECRETKEY16CHAR0"] ∧
    ¬ ∃ suffix : String,
        "/d/user/user@example.com_authenticator_secret_key.txt" = "/d/user_" ++ suffix := by
  refine ⟨by decide, ?_⟩
  rintro ⟨suffix, h⟩
  have hd := congrArg String.data h
  rw [String.data_append] at hd
  have hpre : ("/d/user_").data <+: ("/d/user/user@example.com_authenticator_secret_key.txt").data :=
    ⟨suffix.data, hd.symm⟩
  exact absurd hpre (by decide)

/-! ## Claim C3: secret-extraction validation -/

/-- A successful `firstAccepted` scan returns the cleanup of one of the
candidate texts, and that cleanup satisfies the acceptance predicate. -/
theorem firstAccepted_spec (accept : String → Bool) :
    ∀ (cands : List (Option String)) (s : String),
      firstAccepted accept cands = some s →
      accept s = true ∧ ∃ t, some t ∈ cands ∧ s = clean_candidate t := by
  intro cands
  induction cands with
  | nil => intro s h; simp [firstAccepted] at h
  | cons c rest ih =>
    intro s h
    cases c with
    | none =>
      obtain ⟨ha, t, ht, he⟩ := ih s (by simpa [firstAccepted] using h)
      exact ⟨ha, t, List.mem_cons_of_mem _ ht, he⟩
    | some t =>
      by_cases hacc : accept (clean_candidate t) = true
      · rw [firstAccepted, if_pos hacc] at h
        cases h
        exact ⟨hacc, t, List.mem_cons_self _ _, rfl⟩
      · rw [firstAccepted, if_neg hacc] at h
        obtain ⟨ha, t', ht', he'⟩ := ih s h
        exact ⟨ha, t', List.mem_cons_of_mem _ ht', he'⟩

/-- C3 (amended): an extracted secret is always the cleanup (strip spaces,
uppercase) of one of the candidate texts and is at least 16 characters long;
candidates from the primary reference-XPath list are accepted on length
alone (no alphanumeric check), while candidates from the alternative list
must additionally be alphanumeric; when no candidate passes,
`setup_authenticator` returns the definite `SECRET_EXTRACTION_FAILED` step
result and fabricates nothing. -/
theorem secret_extractor_validation (page : AuthPage) :
    (∀ s, extract_secret_key page = some s →
      16 ≤ pyLen s ∧
      ((∃ t, some t ∈ primary_candidates page ∧ s = clean_candidate t) ∨
       (pyIsAlnum s = true ∧ ∃ t, some t ∈ alt_candidates page ∧ s = clean_candidate t))) ∧
    (extract_secret_key page = none →
      setup_authenticator page =
        (false, none, some "SECRET_EXTRACTION_FAILED",
         some "Failed to extract TOTP secret key")) := by
  constructor
  · intro s h
    unfold extract_secret_key at h
    cases hp : firstAccepted accept_primary (primary_candidates page) with
    | some v =>
      rw [hp] at h
      cases h
      obtain ⟨ha, t, ht, he⟩ := firstAccepted_spec accept_primary (primary_candidates page) s hp
      refine ⟨?_, Or.inl ⟨t, ht, he⟩⟩
      simpa [accept_primary] using ha
    | none =>
      rw [hp] at h
      obtain ⟨ha, t, ht, he⟩ := firstAccepted_spec accept_alt (alt_candidates page) s h
      rw [accept_alt, Bool.and_eq_true, decide_eq_true_eq] at ha
      exact ⟨ha.1, Or.inr ⟨ha.2, t, ht, he⟩⟩
  · intro h
    unfold setup_authenticator
    rw [h]

/-- C3 witness: a page exposing no candidate yields the failure step result. -/
theorem secret_extractor_validation_witness :
    setup_authenticator authPageEmpty =
      (false, none, some "SECRET_EXTRACTION_FAILED",
       some "Failed to extract TOTP secret key") :=
  (secret_extractor_validation authPageEmpty).2 (by decide)

/-- C3 counterexample: a 17-character candidate containing an exclamation
mark sits at the primary reference XPath; the extractor accepts it even
though the cleaned text is not alphanumeric, refuting the claim that a
candidate is accepted only if alphanumeric. -/
theorem secret_extractor_accepts_non_alnum_counterexample :
    extract_secret_key authPageBang = some "ABCDEFGH!JKLMNOPQ" ∧
    pyIsAlnum "ABCDEFGH!JKLMNOPQ" = false ∧
    setup_authenticator authPageBang = (true, some "ABCDEFGH!JKLMNOPQ", none, none) := by
  refine ⟨by decide, by decide, by decide⟩

/-- When the driver starts, all five navigation steps succeed and the SFTP
sink does not raise, the pipeline returns the success record (whatever the
sink outcomes) and its effects are the launch followed by the sink effects. -/
theorem process_single_user_nav_ok (env : PipeEnv) (email pw : String) (skOpt : Option String)
    (hdi : env.driver_init = Except.ok ())
    (hl : (env.login email pw none).1 = true)
    (ha1 : (env.setup_auth email).1 = true)
    (ha2 : (env.setup_auth email).2.1 = skOpt)
    (hup : ∀ m, (upload_secret_to_sftp env.sftp email skOpt).1 ≠ SftpRet.raised m)
    (hv : (env.verify_auth email skOpt).1 = true)
    (he : (env.enable_2sv email).1 = true)
    (hg : (env.gen_app_password email).1 = true) :
    process_single_user env email pw =
      ({ email := some email, status := "success", step_completed := some "completed",
         error_step := none, error_message := none,
         app_password := (env.gen_app_password email).2.1,
         secret_key := mask_if_truthy skOpt,
         timings := some [("driver_init", env.dur "driver_init"), ("login", env.dur "login"),
           ("authenticator_setup", env.dur "authenticator_setup"),
           ("sftp_upload", env.dur "sftp_upload"),
           ("verify_authenticator", env.dur "verify_authenticator"),
           ("enable_2sv", env.dur "enable_2sv"), ("app_password", env.dur "app_password"),
           ("dynamodb_save", env.dur "dynamodb_save"), ("total", env.dur "total")] },
       [Effect.driverLaunch] ++ (upload_secret_to_sftp env.sftp email skOpt).2 ++
         (save_to_dynamodb env.dynamo email (env.gen_app_password email).2.1 skOpt).2) := by
  unfold process_single_user
  rw [hdi]
  rcases hL : env.login email pw none with ⟨lok, lc, lm⟩
  rw [hL] at hl
  dsimp at hl ⊢
  subst hl
  rcases hA : env.setup_auth email with ⟨aok, skv, ac, am⟩
  rw [hA] at ha1 ha2
  dsimp at ha1 ha2 ⊢
  subst ha1
  subst ha2
  rcases hU : upload_secret_to_sftp env.sftp email skv with ⟨ur, ueffs⟩
  rw [hU] at hup
  cases ur with
  | raised m => exact absurd rfl (hup m)
  | ret uh upth =>
    rcases hV : env.verify_auth email skv with ⟨vok, vc, vm⟩
    rw [hV] at hv
    dsimp at hv ⊢
    subst hv
    rcases hE : env.enable_2sv email with ⟨eok, ec, em⟩
    rw [hE] at he
    dsimp at he ⊢
    subst he
    rcases hG : env.gen_app_password email with ⟨gok, ap, gc, gm⟩
    rw [hG] at hg
    dsimp at hg ⊢
    subst hg
    rcases hD : save_to_dynamodb env.dynamo email ap skv with ⟨dok, deffs⟩
    simp [hA, hU, hV, hE, hG, hD]

/-! ## Claim C2: the persistence sinks of a successful run -/

/-- C2 (amended): on a fully successful run for one credential (all
navigation steps succeed, the SFTP sink connects with full credentials and
a parsable port, the DynamoDB put succeeds) the pipeline writes the derived
secrets to exactly two independent external stores — one SFTP file write
and one DynamoDB put, with no cross-store transaction — and performs no
object-store (S3) write at all: the aggregate-file S3 sink was removed
(main.py lines 389-394). -/
theorem successful_run_writes_two_stores (env : PipeEnv) (email pw sk : String)
    (hdi : env.driver_init = Except.ok ())
    (hl : (env.login email pw none).1 = true)
    (ha : env.setup_auth email = (true, some sk, none, none))
    (hport : (pyInt (env.sftp.SECRET_SFTP_PORT.getD "22")).isSome = true)
    (hhost : pyLen (env.sftp.SECRET_SFTP_HOST.getD "46.224.9.127") ≠ 0)
    (huser : pyLen (env.sftp.SECRET_SFTP_USER.getD "") ≠ 0)
    (hpass : pyLen (env.sftp.SECRET_SFTP_PASSWORD.getD "") ≠ 0)
    (hconn : env.sftp.conn_ok = true)
    (hv : (env.verify_auth email (some sk)).1 = true)
    (he : (env.enable_2sv email).1 = true)
    (hg : (env.gen_app_password email).1 = true)
    (hput : env.dynamo.put_ok = true) :
    (process_single_user env email pw).1.status = "success" ∧
    (process_single_user env email pw).2.countP Effect.isSftpWrite = 1 ∧
    (process_single_user env email pw).2.countP Effect.isDynamoPut = 1 ∧
    (process_single_user env email pw).2.countP Effect.isS3 = 0 := by
  have hup := upload_secret_to_sftp_not_raised env.sftp email (some sk) hport
  have hmain := process_single_user_nav_ok env email pw (some sk) hdi hl
    (by rw [ha]) (by rw [ha]) hup hv he hg
  have hueff := congrArg Prod.snd (upload_secret_to_sftp_ok env.sftp email sk
    hport hhost huser hpass hconn)
  dsimp at hueff
  rw [hmain, hueff]
  unfold save_to_dynamodb
  rw [hput]
  simp [List.countP_cons, Effect.isSftpWrite, Effect.isDynamoPut, Effect.isS3]

/-- C2 witness: the concrete all-success environment writes once to SFTP,
once to DynamoDB and never to S3. -/
theorem successful_run_writes_two_stores_witness :
    (process_single_user pipeAllOk "user@example.com" "pw").1.status = "success" ∧
    (process_single_user pipeAllOk "user@example.com" "pw").2.countP Effect.isSftpWrite = 1 ∧
    (process_single_user pipeAllOk "user@example.com" "pw").2.countP Effect.isDynamoPut = 1 ∧
    (process_single_user pipeAllOk "user@example.com" "pw").2.countP Effect.isS3 = 0 :=
  successful_run_writes_two_stores pipeAllOk "user@example.com" "pw" "ABCDEFGHIJKLMNOP"
    rfl rfl rfl (by decide) (by decide) (by decide) (by decide) rfl rfl rfl rfl rfl

/-- C2 counterexample: a fully successful concrete run produces exactly the
driver launch, one SFTP write and one DynamoDB put — no object-store write
occurs anywhere, so the run does not persist to three stores. -/
theorem successful_run_has_no_s3_write_counterexample :
    (process_single_user pipeAllOk "user@example.com" "pw").1.status = "success" ∧
    (process_single_user pipeAllOk "user@example.com" "pw").2 =
      [Effect.driverLaunch,
       Effect.sftpWrite "h" "/d/user/user@example.com_authenticator_secret_key.txt"
         "ABCDEFGHIJKLMNOP",
       Effect.dynamoPut "gbot-app-passwords"
         { email := "user@example.com", app_password := some "abcd-efgh-ijkl-mnop",
           created_at := 1700000000, updated_at := 1700000000,
           secret_key := some "ABCD****MNOP" }] ∧
    (process_single_user pipeAllOk "user@example.com" "pw").2.all
      (fun e => !e.isS3) = true := by
  refine ⟨by decide, by decide, by decide⟩

/-! ## Claim C8: sink failures are non-fatal (with one exception) -/

/-- C8 (amended): when the driver starts, every navigation step (login,
authenticator setup, verification, 2SV enable, app-password generation)
succeeds and the SFTP port configuration parses as an integer, the outcome
record has status "success" whatever the SFTP connection outcome and
whatever the DynamoDB put outcome — those sink failures are only logged.
The exception the counterexample exhibits: a non-numeric
`SECRET_SFTP_PORT` raises outside the SFTP sink's own exception handler
and fails the whole run. -/
theorem sink_failures_nonfatal (env : PipeEnv) (email pw : String)
    (hdi : env.driver_init = Except.ok ())
    (hl : (env.login email pw none).1 = true)
    (ha : (env.setup_auth email).1 = true)
    (hport : (pyInt (env.sftp.SECRET_SFTP_PORT.getD "22")).isSome = true)
    (hv : (env.verify_auth email (env.setup_auth email).2.1).1 = true)
    (he : (env.enable_2sv email).1 = true)
    (hg : (env.gen_app_password email).1 = true) :
    (process_single_user env email pw).1.status = "success" ∧
    (process_single_user env email pw).1.error_message = none := by
  have hup := upload_secret_to_sftp_not_raised env.sftp email (env.setup_auth email).2.1 hport
  have hmain := process_single_user_nav_ok env email pw (env.setup_auth email).2.1 hdi hl
    ha rfl hup hv he hg
  rw [hmain]
  exact ⟨rfl, rfl⟩

/-- C8 witness: all navigation steps succeed while both sinks fail (SFTP
connection down, DynamoDB put raising); the record still reports success. -/
theorem sink_failures_nonfatal_witness :
    (process_single_user pipeSinksFail "user@example.com" "pw").1.status = "success" ∧
    (process_single_user pipeSinksFail "user@example.com" "pw").1.error_message = none :=
  sink_failures_nonfatal pipeSinksFail "user@example.com" "pw" rfl rfl rfl
    (by decide) rfl rfl rfl

/-- C8 counterexample: with every navigation step succeeding but
`SECRET_SFTP_PORT` set to the non-numeric string "abc", the `int(...)` call
at main.py line 332 raises outside the sink's own `try`, the catch-all
handler fires, and the returned record has status "failed" — an SFTP sink
failure that is fatal, contradicting the claim that the record is
"success" even when the SFTP upload fails. -/
theorem sink_failure_fatal_on_bad_port_counterexample :
    (pipeBadPort.login "user@example.com" "pw" none).1 = true ∧
    (pipeBadPort.setup_auth "user@example.com").1 = true ∧
    (pipeBadPort.verify_auth "user@example.com" (some "ABCDEFGHIJKLMNOP")).1 = true ∧
    (pipeBadPort.enable_2sv "user@example.com").1 = true ∧
    (pipeBadPort.gen_app_password "user@example.com").1 = true ∧
    (process_single_user pipeBadPort "user@example.com" "pw").1.status = "failed" ∧
    (process_single_user pipeBadPort "user@example.com" "pw").1.error_message =
      some "Unhandled exception: invalid literal for int() with base 10" := by
  refine ⟨rfl, rfl, rfl, rfl, rfl, by decide, by decide⟩

/-! ## Claim C6: the login OTP retry loop -/

/-- Every code the OTP loop submits beyond the accumulator is freshly
recomputed from the cleaned secret at that attempt's time, and at most one
code is submitted per retry index. -/
theorem otp_retry_loop_gens {S : Type} (env : OtpEnv S) (ks : String) :
    ∀ (retries : List Nat) (s : S) (gens0 : List (String × Nat)),
      ∃ extra, (otp_retry_loop env ks retries s gens0).2 = gens0 ++ extra ∧
        extra.length ≤ retries.length ∧
        ∀ g ∈ extra, g.1 = totp_now env.hotp (pyUpper (pyRemoveSpaces ks)) g.2 := by
  intro retries
  induction retries with
  | nil => intro s gens0; exact ⟨[], by simp [otp_retry_loop], by simp, by simp⟩
  | cons r rest ih =>
    intro s gens0
    rw [otp_retry_loop]
    by_cases hr : env.raises s r = true
    · rw [if_pos hr]
      by_cases h2 : (r == 2) = true
      · rw [if_pos h2]
        exact ⟨[], by simp, by simp, by simp⟩
      · rw [if_neg h2]
        obtain ⟨extra, he, hlen, hmem⟩ := ih (env.raiseTick s) gens0
        exact ⟨extra, he, Nat.le_succ_of_le hlen, hmem⟩
    · rw [if_neg hr]
      dsimp only
      set code := totp_now env.hotp (pyUpper (pyRemoveSpaces ks)) (env.time s) with hcode
      by_cases hbrk : (!pyIn "challenge/totp" (env.url (env.submitTick s code))) = true
      · rw [if_pos hbrk]
        refine ⟨[(code, env.time s)], rfl, by simp, ?_⟩
        intro g hg
        rw [List.mem_singleton] at hg
        subst hg
        rfl
      · rw [if_neg hbrk]
        by_cases hlt : r < 2
        · rw [if_pos hlt]
          obtain ⟨extra, he, hlen, hmem⟩ :=
            ih (env.retrySleep (env.submitTick s code)) (gens0 ++ [(code, env.time s)])
          refine ⟨(code, env.time s) :: extra, by simpa using he, by simpa using hlen, ?_⟩
          intro g hg
          rcases List.mem_cons.mp hg with h | h
          · subst h; rfl
          · exact hmem g h
        · rw [if_neg hlt]
          refine ⟨[(code, env.time s)], rfl, by simp, ?_⟩
          intro g hg
          rw [List.mem_singleton] at hg
          subst hg
          rfl

/-- The only early-return error codes the OTP loop can produce are
`OTP_REJECTED` and `OTP_SUBMISSION_ERROR`. -/
theorem otp_retry_loop_ret_codes {S : Type} (env : OtpEnv S) (ks : String) :
    ∀ (retries : List Nat) (s : S) (gens0 : List (String × Nat)) (c m : String) (s' : S),
      (otp_retry_loop env ks retries s gens0).1 = OtpOut.ret c m s' →
      c = "OTP_REJECTED" ∨ c = "OTP_SUBMISSION_ERROR" := by
  intro retries
  induction retries with
  | nil => intro s gens0 c m s' h; simp [otp_retry_loop] at h
  | cons r rest ih =>
    intro s gens0 c m s' h
    rw [otp_retry_loop] at h
    by_cases hr : env.raises s r = true
    · rw [if_pos hr] at h
      by_cases h2 : (r == 2) = true
      · rw [if_pos h2] at h
        cases h
        exact Or.inr rfl
      · rw [if_neg h2] at h
        exact ih _ _ c m s' h
    · rw [if_neg hr] at h
      dsimp only at h
      by_cases hbrk : (!pyIn "challenge/totp"
          (env.url (env.submitTick s (totp_now env.hotp (pyUpper (pyRemoveSpaces ks))
            (env.time s))))) = true
      · rw [if_pos hbrk] at h
        cases h
      · rw [if_neg hbrk] at h
        by_cases hlt : r < 2
        · rw [if_pos hlt] at h
          exact ih _ _ c m s' h
        · rw [if_neg hlt] at h
          cases h
          exact Or.inl rfl

/-- C6 (amended): the login TOTP challenge loop makes at most 3 submission
attempts; before every attempt a code is freshly recomputed from the secret
at the current time via the RFC 6238 window function (though a recomputed
code equals the previous one whenever both attempts fall in the same
30-second window, so the same code value can be resubmitted); the only
failure codes it can return are OTP_REJECTED and OTP_SUBMISSION_ERROR; and
when no attempt raises and the page rejects every submission, it returns
exactly OTP_REJECTED after 3 submissions. -/
theorem otp_retry_bounded_fresh_and_rejected {S : Type} (env : OtpEnv S) (ks : String) (s : S) :
    ((otp_retry_loop env ks [0, 1, 2] s []).2.length ≤ 3 ∧
     ∀ g ∈ (otp_retry_loop env ks [0, 1, 2] s []).2,
       g.1 = totp_now env.hotp (pyUpper (pyRemoveSpaces ks)) g.2) ∧
    (∀ c m s', (otp_retry_loop env ks [0, 1, 2] s []).1 = OtpOut.ret c m s' →
       c = "OTP_REJECTED" ∨ c = "OTP_SUBMISSION_ERROR") ∧
    ((∀ t r, env.raises t r = false) →
     (∀ t code, pyIn "challenge/totp" (env.url (env.submitTick t code)) = true) →
     ((otp_retry_loop env ks [0, 1, 2] s []).1).retCode =
         some ("OTP_REJECTED", "OTP code was rejected by Google") ∧
       (otp_retry_loop env ks [0, 1, 2] s []).2.length = 3) := by
  refine ⟨⟨?_, ?_⟩, ?_, ?_⟩
  · obtain ⟨extra, he, hlen, _⟩ := otp_retry_loop_gens env ks [0, 1, 2] s []
    rw [he]
    simpa using hlen
  · intro g hg
    obtain ⟨extra, he, _, hmem⟩ := otp_retry_loop_gens env ks [0, 1, 2] s []
    rw [he] at hg
    exact hmem g (by simpa using hg)
  · intro c m s' h
    exact otp_retry_loop_ret_codes env ks [0, 1, 2] s [] c m s' h
  · intro hraise hstay
    constructor
    · simp [otp_retry_loop, hraise, hstay, OtpOut.retCode]
    · simp [otp_retry_loop, hraise, hstay]

/-- C6 witness: against a page that rejects every code (and raises nothing),
the loop submits exactly 3 codes and returns OTP_REJECTED. -/
theorem otp_retry_bounded_fresh_and_rejected_witness :
    ((otp_retry_loop otpEnvSameWindow "GEZDGNBVGY3TQOJQ" [0, 1, 2] 0 []).1).retCode =
        some ("OTP_REJECTED", "OTP code was rejected by Google") ∧
      (otp_retry_loop otpEnvSameWindow "GEZDGNBVGY3TQOJQ" [0, 1, 2] 0 []).2.length = 3 :=
  (otp_retry_bounded_fresh_and_rejected otpEnvSameWindow "GEZDGNBVGY3TQOJQ" 0).2.2
    (fun _ _ => rfl) (fun _ _ => rfl)

/-- C6 counterexample: with the source's own sleeps (5 seconds after a
submission, 3 more before a retry) and a page that rejects every code, the
three generation times 0, 8 and 16 all fall in the same 30-second RFC 6238
window, so the identical code is submitted three times — refuting the claim
that the same code is never resubmitted. -/
theorem otp_same_code_resubmitted_counterexample :
    otp_retry_loop otpEnvSameWindow "GEZDGNBVGY3TQOJQ" [0, 1, 2] 0 [] =
      (OtpOut.ret "OTP_REJECTED" "OTP code was rejected by Google" 21,
       [("code0", 0), ("code0", 8), ("code0", 16)]) ∧
    ((otp_retry_loop otpEnvSameWindow "GEZDGNBVGY3TQOJQ" [0, 1, 2] 0 []).2.map Prod.fst) =
      ["code0", "code0", "code0"] := by
  refine ⟨by decide, by decide⟩

/-! ## Claim C7: interstitial handler and login wait-loop timeouts -/

/-- The interstitial loop reports success only when the returned state's
URL contains the target, and any non-success outcome carries exactly the
`POST_LOGIN_TIMEOUT` code. -/
theorem hplp_loop_outcomes {S : Type} (env : PostLoginEnv S) (ma : Nat) :
    ∀ (attempts : List Nat) (s : S) (evs : List NavEvent) res s' evs',
      hplp_loop env ma attempts s evs = (res, s', evs') →
      (res.1 = true → pyIn "myaccount.google.com" (env.url s') = true) ∧
      (res.1 = false → res.2.1 = some "POST_LOGIN_TIMEOUT") := by
  intro attempts
  induction attempts with
  | nil =>
    intro s evs res s' evs' hEq
    rw [hplp_loop] at hEq
    have hres := congrArg (fun x => x.1) hEq
    dsimp only at hres
    subst hres
    exact ⟨(fun h => nomatch h), fun _ => rfl⟩
  | cons a rest ih =>
    intro s evs res s' evs' hEq
    rw [hplp_loop] at hEq
    dsimp only at hEq
    by_cases hbr : env.bodyRaises (env.sleepTick s) = true
    · rw [if_pos hbr] at hEq
      exact ih _ _ res s' evs' hEq
    · rw [if_neg hbr] at hEq
      by_cases htgt : pyIn "myaccount.google.com" (env.url (env.sleepTick s)) = true
      · rw [if_pos htgt] at hEq
        have hres := congrArg (fun x => x.1) hEq
        have hs := congrArg (fun x => x.2.1) hEq
        dsimp only at hres hs
        subst hres
        subst hs
        exact ⟨fun _ => htgt, fun h => nomatch h⟩
      · rw [if_neg htgt] at hEq
        by_cases hsp : pyIn "speedbump" (env.url (env.sleepTick s)) = true
        · rw [if_pos hsp] at hEq
          exact ih _ _ res s' evs' hEq
        · rw [if_neg hsp] at hEq
          by_cases hvf : (pyIn "verify" (pyLower (env.url (env.sleepTick s))) ||
              env.verifyMarker (env.sleepTick s)) = true
          · rw [if_pos hvf] at hEq
            exact ih _ _ res s' evs' hEq
          · rw [if_neg hvf] at hEq
            by_cases hrv : env.reviewMarker (env.sleepTick s) = true
            · rw [if_pos hrv] at hEq
              exact ih _ _ res s' evs' hEq
            · rw [if_neg hrv] at hEq
              by_cases hfin : ma - 3 ≤ a
              · rw [if_pos hfin] at hEq
                exact ih _ _ res s' evs' hEq
              · rw [if_neg hfin] at hEq
                exact ih _ _ res s' evs' hEq

/-- In a run that never reaches the target, never raises and never matches
any interstitial class, the loop times out and performs a direct navigation
to the target on exactly the attempts with index at least `20 - 3`. -/
theorem hplp_loop_stuck {S : Type} (env : PostLoginEnv S)
    (H1 : ∀ s, pyIn "myaccount.google.com" (env.url s) = false)
    (H2 : ∀ s, env.bodyRaises s = false)
    (H3 : ∀ s, pyIn "speedbump" (env.url s) = false)
    (H4 : ∀ s, pyIn "verify" (pyLower (env.url s)) = false)
    (H5 : ∀ s, env.verifyMarker s = false)
    (H6 : ∀ s, env.reviewMarker s = false) :
    ∀ (attempts : List Nat) (s : S) (evs : List NavEvent),
      (hplp_loop env 20 attempts s evs).1.1 = false ∧
      (hplp_loop env 20 attempts s evs).2.2 =
        evs ++ (attempts.filter (fun a => 20 - 3 ≤ a)).map NavEvent.directNav := by
  intro attempts
  induction attempts with
  | nil => intro s evs; simp [hplp_loop]
  | cons a rest ih =>
    intro s evs
    rw [hplp_loop]
    dsimp only
    rw [H1, H2, H3, H4, H5, H6]
    simp only [Bool.false_or, if_false, Bool.false_eq_true, List.filter_cons]
    by_cases hfin : 20 - 3 ≤ a
    · rw [if_pos hfin]
      obtain ⟨hf, he⟩ := ih (env.navTargetTick (env.genericTick (env.sleepTick s)))
        (evs ++ [NavEvent.directNav a])
      refine ⟨hf, ?_⟩
      rw [he]
      simp [hfin]
    · rw [if_neg hfin]
      obtain ⟨hf, he⟩ := ih (env.genericTick (env.sleepTick s)) evs
      refine ⟨hf, ?_⟩
      rw [he]
      simp [hfin]

/-- When every tick of the login wait loop sees a readable URL that matches
no terminal condition and no interstitial class, the loop exhausts its
budget and returns `LOGIN_TIMEOUT` with the last URL read. -/
theorem login_wait_loop_stuck {S : Type} (env : LoginEnv S) (kts : Option String)
    (Hok : ∀ s, env.url_ok s = true)
    (Hidv : ∀ s, pyIn "idvreenable" (env.url s) = false)
    (Hidv2 : ∀ s, pyIn "speedbump/idvreenable" (env.url s) = false)
    (Hdom : ∀ s, (login_success_domains.any fun d => pyIn d (env.url s)) = false)
    (Hsp : ∀ s, pyIn "speedbump" (env.url s) = false)
    (Htsv : ∀ s, pyIn "twosvrequired" (env.url s) = false)
    (Hch : ∀ s, pyIn "challenge" (env.url s) = false)
    (Hch2 : ∀ s, pyIn "signin/challenge" (env.url s) = false) :
    ∀ (fuel : Nat) (s : S) (lastUrl : String), 0 < fuel →
      login_wait_loop env kts fuel s lastUrl =
        ((false, some "LOGIN_TIMEOUT",
          some ("Login timed out after 90 seconds. Last URL: " ++
            env.url (env.sleepTick^[fuel] s))),
         env.sleepTick^[fuel] s) := by
  intro fuel
  induction fuel with
  | zero => intro s lastUrl h; exact absurd h (by omega)
  | succ n ih =>
    intro s lastUrl _
    rw [login_wait_loop]
    dsimp only
    rw [Hok, Hidv, Hidv2, Hdom, Hsp, Htsv, Hch, Hch2]
    simp only [Bool.or_self, Bool.or_false, Bool.false_or, Bool.not_true, Bool.false_eq_true,
      if_false, Bool.not_false, if_true]
    cases n with
    | zero =>
      rw [login_wait_loop]
      simp [Function.iterate_one]
    | succ m =>
      rw [ih (env.sleepTick s) (env.url (env.sleepTick s)) (Nat.succ_pos m)]
      simp [Function.iterate_succ_apply]

/-- C7: the post-login interstitial handler returns success only when the
final URL contains myaccount.google.com; any non-success outcome carries
the distinct POST_LOGIN_TIMEOUT code; on a run that stays stuck on
unclassified pages it times out after forcing a direct navigation to the
target on exactly its final three attempts (indices 17, 18, 19 of 20); and
the login wait loop, when stuck on unrecognized pages for its whole budget,
returns the distinct LOGIN_TIMEOUT code, never a silent success. -/
theorem post_login_never_silent_success :
    (∀ (S : Type) (env : PostLoginEnv S) (ma : Nat) (s0 : S),
       (handle_post_login_pages env ma s0).1.1 = true →
       pyIn "myaccount.google.com" (env.url (handle_post_login_pages env ma s0).2.1) = true) ∧
    (∀ (S : Type) (env : PostLoginEnv S) (ma : Nat) (s0 : S),
       (handle_post_login_pages env ma s0).1.1 = false →
       (handle_post_login_pages env ma s0).1.2.1 = some "POST_LOGIN_TIMEOUT") ∧
    (∀ (S : Type) (env : PostLoginEnv S) (s0 : S),
       (∀ s, pyIn "myaccount.google.com" (env.url s) = false) →
       (∀ s, env.bodyRaises s = false) →
       (∀ s, pyIn "speedbump" (env.url s) = false) →
       (∀ s, pyIn "verify" (pyLower (env.url s)) = false) →
       (∀ s, env.verifyMarker s = false) →
       (∀ s, env.reviewMarker s = false) →
       (handle_post_login_pages env 20 s0).1.1 = false ∧
       (handle_post_login_pages env 20 s0).2.2 =
         [NavEvent.directNav 17, NavEvent.directNav 18, NavEvent.directNav 19]) ∧
    (∀ (S : Type) (env : LoginEnv S) (email pw : String) (kts : Option String) (s0 : S),
       env.nav_ok = true → env.email_ok = true → env.password_field_found = true →
       env.password_ok = true →
       (∀ s, env.url_ok s = true) →
       (∀ s, pyIn "idvreenable" (env.url s) = false) →
       (∀ s, pyIn "speedbump/idvreenable" (env.url s) = false) →
       (∀ s, (login_success_domains.any fun d => pyIn d (env.url s)) = false) →
       (∀ s, pyIn "speedbump" (env.url s) = false) →
       (∀ s, pyIn "twosvrequired" (env.url s) = false) →
       (∀ s, pyIn "challenge" (env.url s) = false) →
       (∀ s, pyIn "signin/challenge" (env.url s) = false) →
       login_google env email pw kts s0 =
         ((false, some "LOGIN_TIMEOUT",
           some ("Login timed out after 90 seconds. Last URL: " ++
             env.url (env.sleepTick^[30] (env.startTick s0)))),
          env.sleepTick^[30] (env.startTick s0))) := by
  refine ⟨?_, ?_, ?_, ?_⟩
  · intro S env ma s0 h
    exact (hplp_loop_outcomes env ma (List.range ma) s0 []
      (handle_post_login_pages env ma s0).1 (handle_post_login_pages env ma s0).2.1
      (handle_post_login_pages env ma s0).2.2 rfl).1 h
  · intro S env ma s0 h
    exact (hplp_loop_outcomes env ma (List.range ma) s0 []
      (handle_post_login_pages env ma s0).1 (handle_post_login_pages env ma s0).2.1
      (handle_post_login_pages env ma s0).2.2 rfl).2 h
  · intro S env s0 H1 H2 H3 H4 H5 H6
    obtain ⟨hf, he⟩ := hplp_loop_stuck env H1 H2 H3 H4 H5 H6 (List.range 20) s0 []
    refine ⟨hf, ?_⟩
    show (hplp_loop env 20 (List.range 20) s0 []).2.2 = _
    rw [he]
    decide
  · intro S env email pw kts s0 h1 h2 h3 h4 Hok Hidv Hidv2 Hdom Hsp Htsv Hch Hch2
    unfold login_google
    rw [h1, h2, h3, h4]
    simp only [Bool.not_true, Bool.false_eq_true, if_false]
    exact login_wait_loop_stuck env kts Hok Hidv Hidv2 Hdom Hsp Htsv Hch Hch2 30
      (env.startTick s0) "None" (by omega)

/-- C7 witness: a concrete run stuck on an unrecognized page times out with
POST_LOGIN_TIMEOUT after direct navigations on attempts 17, 18, 19, and a
stuck login wait loop returns LOGIN_TIMEOUT. -/
theorem post_login_never_silent_success_witness :
    (handle_post_login_pages postLoginStuck 20 ()).1.1 = false ∧
    (handle_post_login_pages postLoginStuck 20 ()).2.2 =
      [NavEvent.directNav 17, NavEvent.directNav 18, NavEvent.directNav 19] ∧
    (login_google loginEnvStuck "e" "p" none ()).1.2.1 = some "LOGIN_TIMEOUT" := by
  obtain ⟨hf, he⟩ := post_login_never_silent_success.2.2.1 Unit postLoginStuck ()
    (fun s1 => rfl) (fun s2 => rfl) (fun s3 => rfl) (fun s4 => rfl) (fun s5 => rfl)
    (fun s6 => rfl)
  refine ⟨hf, he, ?_⟩
  rw [post_login_never_silent_success.2.2.2 Unit loginEnvStuck "e" "p" none ()
    rfl rfl rfl rfl (fun t1 => rfl) (fun t2 => rfl) (fun t3 => rfl) (fun t4 => rfl)
    (fun t5 => rfl) (fun t6 => rfl) (fun t7 => rfl) (fun t8 => rfl)]

/-! ## Claim C1: secrets masked, passwords never echoed -/

/-- Every record `process_single_user` returns carries either no
`secret_key` or the first-4 + "****" + last-4 masking of the secret the
authenticator-setup step extracted. -/
theorem psu_secret_key_masked (env : PipeEnv) (email pw : String) :
    (process_single_user env email pw).1.secret_key = none ∨
    ∃ s, (env.setup_auth email).2.1 = some s ∧
      (process_single_user env email pw).1.secret_key = some (mask_secret s) := by
  unfold process_single_user
  cases hdi : env.driver_init with
  | error e => exact Or.inl rfl
  | ok u =>
    cases u
    rcases hL : env.login email pw none with ⟨lok, lc, lm⟩
    rcases hA : env.setup_auth email with ⟨aok, skv, ac, am⟩
    rcases hU : upload_secret_to_sftp env.sftp email skv with ⟨ur, ueffs⟩
    rcases hV : env.verify_auth email skv with ⟨vok, vc, vm⟩
    rcases hE : env.enable_2sv email with ⟨eok, ec, em⟩
    rcases hG : env.gen_app_password email with ⟨gok, ap, gc, gm⟩
    have key : mask_if_truthy skv = none ∨
        ∃ s, skv = some s ∧ mask_if_truthy skv = some (mask_secret s) := by
      cases skv with
      | none => exact Or.inl rfl
      | some s =>
        by_cases h : (pyLen s == 0) = true
        · exact Or.inl (by simp [mask_if_truthy, h])
        · exact Or.inr ⟨s, rfl, by simp [mask_if_truthy, h]⟩
    simp only [hL, hA, hU, hV, hE, hG]
    cases lok <;> cases aok <;> cases ur <;> cases vok <;> cases eok <;> cases gok <;>
      simp <;> exact key

/-- C1: in every Outcome Record the pipeline returns — single mode or batch
mode, success or failure — the `secret_key` field is either absent or the
first-4 + "****" + last-4 masking of the extracted secret; and the record
construction never consults the raw password: two runs whose login step has
the same outcome produce identical records (and effects) whatever passwords
the caller supplied, so no returned field can echo the password. -/
theorem secrets_masked_password_never_echoed :
    (∀ (env : PipeEnv) (email pw : String),
       (process_single_user env email pw).1.secret_key = none ∨
       ∃ s, (env.setup_auth email).2.1 = some s ∧
         (process_single_user env email pw).1.secret_key = some (mask_secret s)) ∧
    (∀ (env : PipeEnv) (email p1 p2 : String),
       env.login email p1 none = env.login email p2 none →
       process_single_user env email p1 = process_single_user env email p2) ∧
    (∀ (henv : HandlerEnv) (event : Event) (r : OutcomeRecord),
       r ∈ ((handler henv event).1).records →
       r.secret_key = none ∨ ∃ s, r.secret_key = some (mask_secret s)) := by
  refine ⟨psu_secret_key_masked, ?_, ?_⟩
  · intro env email p1 p2 h
    unfold process_single_user
    rw [h]
  · intro henv event r hr
    have hpsu : ∀ (pipe : PipeEnv) (e p : String),
        r = (process_single_user pipe e p).1 →
        r.secret_key = none ∨ ∃ s, r.secret_key = some (mask_secret s) := by
      intro pipe e p hrec
      rcases psu_secret_key_masked pipe e p with hk | ⟨s, _, hk⟩
      · exact Or.inl (hrec ▸ hk)
      · exact Or.inr ⟨s, hrec ▸ hk⟩
    have hsingle : r ∈ ((handler_single henv event).1).records →
        r.secret_key = none ∨ ∃ s, r.secret_key = some (mask_secret s) := by
      intro hs
      unfold handler_single at hs
      by_cases hc : (pyLen ((event.email <|> henv.GW_EMAIL).getD "") == 0 ||
          pyLen ((event.password <|> henv.GW_PASSWORD).getD "") == 0) = true
      · rw [if_pos hc] at hs
        simp only [HandlerResponse.records, List.mem_singleton] at hs
        subst hs
        exact Or.inl rfl
      · rw [if_neg hc] at hs
        rcases hP : process_single_user henv.pipe ((event.email <|> henv.GW_EMAIL).getD "")
            ((event.password <|> henv.GW_PASSWORD).getD "") with ⟨rec, effs⟩
        rw [hP] at hs
        simp only [HandlerResponse.records, List.mem_singleton] at hs
        subst hs
        exact hpsu henv.pipe _ _ (by rw [hP])
    unfold handler at hr
    cases hu : event.users with
    | none =>
      rw [hu] at hr
      exact hsingle hr
    | some users =>
      rw [hu] at hr
      dsimp only at hr
      by_cases hemp : users.isEmpty = true
      · rw [if_pos hemp] at hr
        exact hsingle hr
      · rw [if_neg hemp] at hr
        by_cases hlen : 10 < users.length
        · rw [if_pos hlen] at hr
          simp [HandlerResponse.records] at hr
        · rw [if_neg hlen] at hr
          simp only [HandlerResponse.records, List.map_map, List.mem_map] at hr
          obtain ⟨u, _, hrec⟩ := hr
          unfold batch_user_step at hrec
          simp only [Function.comp_apply] at hrec
          by_cases hm : (pyLen (pyStrip (u.email.getD "")) == 0 ||
              pyLen (pyStrip (u.password.getD "")) == 0) = true
          · rw [if_pos hm] at hrec
            rw [← hrec]
            exact Or.inl rfl
          · rw [if_neg hm] at hrec
            exact hpsu henv.pipe _ _ (by rw [← hrec])

/-- C1 witness: for the same step outcomes, two runs that differ only in
the supplied password return identical records and effects. -/
theorem secrets_masked_password_never_echoed_witness :
    process_single_user pipeAllOk "user@example.com" "hunter2" =
      process_single_user pipeAllOk "user@example.com" "opensesame" :=
  secrets_masked_password_never_echoed.2.1 pipeAllOk "user@example.com"
    "hunter2" "opensesame" rfl

/-! ## Claim C4: single-mode fallbacks and the known TOTP secret -/

/-- C4 (amended): in single mode, when email/password are absent from the
event the handler falls back to the `GW_EMAIL` / `GW_PASSWORD` environment
variables; but no known TOTP secret is ever supplied to login — the handler
reads neither the event's `known_totp_secret` field nor the
`KNOWN_TOTP_SECRET` environment variable (its response is invariant under
both), and `login_google` is invoked with no secret, so a login-time TOTP
challenge fails with the `2FA_REQUIRED` error; `login_google` itself does
accept and use a secret passed to its `known_totp_secret` parameter, as the
final conjunct shows on a challenge it then solves. -/
theorem single_mode_fallbacks_but_totp_secret_unused :
    (∀ (henv : HandlerEnv) (event : Event) (e p : String),
       event.users = none → event.email = none → event.password = none →
       henv.GW_EMAIL = some e → henv.GW_PASSWORD = some p →
       pyLen e ≠ 0 → pyLen p ≠ 0 →
       (handler henv event).1 = HandlerResponse.single (process_single_user henv.pipe e p).1 ∧
       (handler henv event).2 = (process_single_user henv.pipe e p).2) ∧
    (∀ (henv : HandlerEnv) (event : Event) (ks kse : Option String),
       handler { henv with KNOWN_TOTP_SECRET := kse }
         { event with known_totp_secret := ks } = handler henv event) ∧
    (∀ (S : Type) (env : LoginEnv S) (email pw : String) (s0 : S),
       env.nav_ok = true → env.email_ok = true → env.password_field_found = true →
       env.password_ok = true →
       env.url_ok (env.sleepTick (env.startTick s0)) = true →
       pyIn "speedbump/idvreenable" (env.url (env.sleepTick (env.startTick s0))) = false →
       pyIn "idvreenable" (env.url (env.sleepTick (env.startTick s0))) = false →
       (login_success_domains.any
         fun d => pyIn d (env.url (env.sleepTick (env.startTick s0)))) = false →
       pyIn "speedbump" (env.url (env.sleepTick (env.startTick s0))) = false →
       pyIn "twosvrequired" (env.url (env.sleepTick (env.startTick s0))) = false →
       pyIn "challenge" (env.url (env.sleepTick (env.startTick s0))) = true →
       pyIn "challenge/pwd" (env.url (env.sleepTick (env.startTick s0))) = false →
       pyIn "challenge/totp" (env.url (env.sleepTick (env.startTick s0))) = true →
       env.otp_input (env.sleepTick (env.startTick s0)) = true →
       login_google env email pw none s0 =
         ((false, some "2FA_REQUIRED", some "2FA required but secret is unknown"),
          env.sleepTick (env.startTick s0))) ∧
    (login_google loginEnvTotpSolvable "e" "p" (some "GEZD GNBV GY3T QOJQ") false).1 =
      (true, none, none) := by
  refine ⟨?_, ?_, ?_, by decide⟩
  · intro henv event e p hu he0 hp0 hge hgp hle hlp
    have h1 : (pyLen e == 0) = false := by simp [hle]
    have h2 : (pyLen p == 0) = false := by simp [hlp]
    unfold handler
    rw [hu]
    unfold handler_single
    rw [he0, hp0, hge, hgp]
    simp only [Option.none_orElse, Option.getD_some, h1, h2, Bool.or_self,
      Bool.false_eq_true, if_false]
    rcases hP : process_single_user henv.pipe e p with ⟨rec, effs⟩
    simp [hP]
  · intro henv event ks kse
    rfl
  · intro S env email pw s0 h1 h2 h3 h4 Hok Hidv2 Hidv Hdom Hsp Htsv Hch Hpwd Htotp Hinput
    unfold login_google
    rw [h1, h2, h3, h4]
    simp only [Bool.not_true, Bool.false_eq_true, if_false]
    rw [show (30 : Nat) = 29 + 1 from rfl, login_wait_loop]
    simp only [Hok, Hidv2, Hidv, Hdom, Hsp, Htsv, Hch, Hpwd, Htotp, Hinput,
      Bool.or_self, Bool.false_or, Bool.true_or, Bool.or_false, Bool.not_true,
      Bool.false_eq_true, if_false, if_true]

/-- C4 witness: a single-mode event with absent credentials falls back to
the environment variables. -/
theorem single_mode_fallbacks_witness :
    (handler { pipe := pipeAllOk, GW_EMAIL := some "env@example.com",
               GW_PASSWORD := some "envpw", KNOWN_TOTP_SECRET := none, total_time := 0 }
       { users := none, email := none, password := none, known_totp_secret := none }).1 =
      HandlerResponse.single
        (process_single_user pipeAllOk "env@example.com" "envpw").1 :=
  (single_mode_fallbacks_but_totp_secret_unused.1
    { pipe := pipeAllOk, GW_EMAIL := some "env@example.com", GW_PASSWORD := some "envpw",
      KNOWN_TOTP_SECRET := none, total_time := 0 }
    { users := none, email := none, password := none, known_totp_secret := none }
    "env@example.com" "envpw" rfl rfl rfl rfl rfl (by decide) (by decide)).1

/-- C4 counterexample: the event carries `known_totp_secret` and the
`KNOWN_TOTP_SECRET` environment variable is set, the login step faces a
TOTP challenge with a visible OTP input — yet the handler returns the
2FA-required failure, because main.py line 1748 calls `login_google`
without passing any secret. -/
theorem known_totp_secret_ignored_counterexample :
    (handler henvTotp eventTotp).1 =
      HandlerResponse.single
        { email := some "user@example.com", status := "failed",
          step_completed := some "login", error_step := some "login",
          error_message := some "2FA required but secret is unknown",
          app_password := none, secret_key := none,
          timings := some [("driver_init", 1), ("login", 1)] } := by
  decide

/-! ## Claim C5: batch cap and per-entry processing -/

/-- C5: a batch with more than 10 entries is rejected fast — the response
has status "failed" with an empty results list, and no effect (in
particular no browser launch) is performed; an accepted non-empty batch of
at most 10 entries is processed strictly in input order, producing exactly
one outcome record per entry via the per-entry step (which continues to
later entries whatever earlier records contain). -/
theorem batch_cap_and_per_entry_records :
    (∀ (henv : HandlerEnv) (event : Event) (users : List BatchUser),
       event.users = some users → 10 < users.length →
       handler henv event =
         (HandlerResponse.invalidBatch "failed"
           ("Too many users in batch: " ++ pyStr users.length ++ ". Maximum is 10.") [], [])) ∧
    (∀ (henv : HandlerEnv) (event : Event) (users : List BatchUser),
       event.users = some users → users ≠ [] → users.length ≤ 10 →
       (handler henv event).1 =
         HandlerResponse.batch "completed" users.length
           ((users.map (fun u => (batch_user_step henv.pipe u).1)).countP
             (fun r => r.status == "success"))
           ((users.map (fun u => (batch_user_step henv.pipe u).1)).length -
             (users.map (fun u => (batch_user_step henv.pipe u).1)).countP
               (fun r => r.status == "success"))
           henv.total_time
           (users.map (fun u => (batch_user_step henv.pipe u).1))) := by
  constructor
  · intro henv event users hu hlen
    have hne : users.isEmpty = false := by
      cases users with
      | nil => simp at hlen
      | cons a l => rfl
    unfold handler
    rw [hu]
    dsimp only
    simp only [hne, Bool.false_eq_true, if_false]
    rw [if_pos hlen]
  · intro henv event users hu hne0 hle
    have hne : users.isEmpty = false := by
      cases users with
      | nil => exact absurd rfl hne0
      | cons a l => rfl
    have hlt : ¬10 < users.length := by omega
    unfold handler
    rw [hu]
    dsimp only
    simp only [hne, Bool.false_eq_true, if_false]
    rw [if_neg hlt]
    simp only [List.map_map]
    rfl

/-- C5 witness: an 11-entry batch is rejected with empty results and no
effects; a 2-entry batch yields exactly its two per-entry records in order. -/
theorem batch_cap_and_per_entry_records_witness :
    handler { pipe := pipeAllOk, GW_EMAIL := none, GW_PASSWORD := none,
              KNOWN_TOTP_SECRET := none, total_time := 7 }
        { users := some elevenUsers, email := none, password := none,
          known_totp_secret := none } =
      (HandlerResponse.invalidBatch "failed"
        "Too many users in batch: 11. Maximum is 10." [], []) ∧
    (handler { pipe := pipeAllOk, GW_EMAIL := none, GW_PASSWORD := none,
               KNOWN_TOTP_SECRET := none, total_time := 7 }
        { users := some twoUsers, email := none, password := none,
          known_totp_secret := none }).1 =
      HandlerResponse.batch "completed" 2 1 1 7
        (twoUsers.map (fun u => (batch_user_step pipeAllOk u).1)) := by
  constructor
  · exact (batch_cap_and_per_entry_records.1 _ _ elevenUsers rfl (by decide)).trans (by decide)
  · exact (batch_cap_and_per_entry_records.2 _ _ twoUsers rfl (by decide) (by decide)).trans
      (by decide)

/-! ## Claim C10: batch response invariants -/

/-- C10: for every accepted batch invocation (a non-empty users list of at
most 10 entries) the results list has exactly one record per input entry,
`batch_size` equals the input length, `success_count` counts exactly the
records whose status is "success", and `success_count + failed_count`
equals `batch_size`. -/
theorem batch_response_count_invariants (henv : HandlerEnv) (event : Event)
    (users : List BatchUser) (h1 : event.users = some users) (h2 : users ≠ [])
    (h3 : users.length ≤ 10) :
    ((handler henv event).1).records.length = users.length ∧
    ((handler henv event).1).batchSize = some users.length ∧
    ((handler henv event).1).successCount =
      some (((handler henv event).1).records.countP (fun r => r.status == "success")) ∧
    (∀ sc fc, ((handler henv event).1).successCount = some sc →
       ((handler henv event).1).failedCount = some fc → sc + fc = users.length) := by
  have hne : users.isEmpty = false := by
    cases users with
    | nil => exact absurd rfl h2
    | cons a l => rfl
  have hlt : ¬10 < users.length := by omega
  have hcalc : (handler henv event).1 =
      HandlerResponse.batch "completed" users.length
        (((users.map (batch_user_step henv.pipe)).map Prod.fst).countP
          (fun r => r.status == "success"))
        (((users.map (batch_user_step henv.pipe)).map Prod.fst).length -
          ((users.map (batch_user_step henv.pipe)).map Prod.fst).countP
            (fun r => r.status == "success"))
        henv.total_time
        ((users.map (batch_user_step henv.pipe)).map Prod.fst) := by
    unfold handler
    rw [h1]
    dsimp only
    simp only [hne, Bool.false_eq_true, if_false]
    rw [if_neg hlt]
  rw [hcalc]
  refine ⟨by simp [HandlerResponse.records], rfl, rfl, ?_⟩
  intro sc fc hsc hfc
  rw [HandlerResponse.successCount] at hsc
  rw [HandlerResponse.failedCount] at hfc
  have hsc2 := Option.some.inj hsc
  have hfc2 := Option.some.inj hfc
  have hcle := List.countP_le_length (l := (users.map (batch_user_step henv.pipe)).map Prod.fst)
    (p := fun r => r.status == "success")
  have hlenm : ((users.map (batch_user_step henv.pipe)).map Prod.fst).length = users.length := by
    simp
  omega

/-- C10 witness: the two-entry batch has batch_size 2, two records, one
success and one failure summing to 2. -/
theorem batch_response_count_invariants_witness :
    ((handler { pipe := pipeAllOk, GW_EMAIL := none, GW_PASSWORD := none,
                KNOWN_TOTP_SECRET := none, total_time := 7 }
        { users := some twoUsers, email := none, password := none,
          known_totp_secret := none }).1).records.length = 2 ∧
    ((handler { pipe := pipeAllOk, GW_EMAIL := none, GW_PASSWORD := none,
                KNOWN_TOTP_SECRET := none, total_time := 7 }
        { users := some twoUsers, email := none, password := none,
          known_totp_secret := none }).1).batchSize = some 2 := by
  have h := batch_response_count_invariants
    { pipe := pipeAllOk, GW_EMAIL := none, GW_PASSWORD := none,
      KNOWN_TOTP_SECRET := none, total_time := 7 }
    { users := some twoUsers, email := none, password := none, known_totp_secret := none }
    twoUsers rfl (by decide) (by decide)
  exact ⟨h.1.trans (by decide), h.2.1.trans (by decide)⟩
